import Mathlib

/-!
Verification development for the StructuralMaster FEA engine and design-code
checker (`src/server/storage.ts`).  JavaScript `number[][]` matrices are
embedded as `List (List ℚ)` (64-bit floats idealised as exact rationals;
out-of-range reads default to 0), JS `Map`s as association lists in insertion
order, and thrown exceptions as `Except`.  `Math.max(...xs)` over a possibly
empty list is embedded as a fold into `WithBot ℚ`, whose `⊥` plays the role of
JavaScript's `-Infinity`.
-/

namespace StructuralMaster

abbrev Mat := List (List ℚ)
abbrev Vec := List ℚ

/-- `A[i][j]` with JS-style out-of-range access defaulting (to 0 rather than
`undefined`; no claim settled below reads out of range). -/
def mget (A : Mat) (i j : ℕ) : ℚ := (A.getD i []).getD j 0

def vget (v : Vec) (i : ℕ) : ℚ := v.getD i 0

def vset (v : Vec) (i : ℕ) (x : ℚ) : Vec := v.set i x

/-- In-place update `A[i][j] = x` (no-op out of range, matching `List.set`). -/
def set2 (A : Mat) (i j : ℕ) (x : ℚ) : Mat := A.set i ((A.getD i []).set j x)

/-- `A[i][j] += x`. -/
def addAt (A : Mat) (i j : ℕ) (x : ℚ) : Mat := set2 A i j (mget A i j + x)

/-- An `r × c` matrix built from an entry function. -/
def mkMat (r c : ℕ) (f : ℕ → ℕ → ℚ) : Mat :=
  (List.range r).map fun i => (List.range c).map fun j => f i j

/-- `Array(n).fill(null).map(() => Array(n).fill(0))` (storage.ts line 1183). -/
def zeroMat (n : ℕ) : Mat := List.replicate n (List.replicate n 0)

/-- Models JavaScript `Math.sqrt` on rationals: exact on perfect-square
rationals (every `Math.sqrt` call that the claims settled below depend on has
a perfect-square argument, where this model agrees with the double result);
elsewhere a Newton-iteration approximation.  `Math.sqrt` of a negative number
is NaN in JS; modelled as 0 (no settled claim exercises that case). -/
def sqrtQ (q : ℚ) : ℚ :=
  if q ≤ 0 then 0
  else
    let sn := Nat.sqrt q.num.natAbs
    let sd := Nat.sqrt q.den
    if sn * sn = q.num.natAbs ∧ sd * sd = q.den then (sn : ℚ) / (sd : ℚ)
    else (List.range 8).foldl (fun x _ => (x + q / x) / 2) (max q 1)

/-- JavaScript `a || b` on numbers: `b` when `a` is falsy (absent or 0). -/
def jsOr (a : Option ℚ) (b : ℚ) : ℚ :=
  match a with
  | none => b
  | some q => if q = 0 then b else q

/-- JavaScript `Math.max(...xs)`: `-Infinity` (here `⊥`) on the empty list. -/
def jsMax (l : List ℚ) : WithBot ℚ := l.foldr (fun q m => max (↑q) m) ⊥

/-- JavaScript `String.prototype.includes` (substring test). -/
def strIncludes (s pattern : String) : Bool :=
  let sl := s.toList
  let pl := pattern.toList
  (List.range (sl.length + 1)).any fun i => pl.isPrefixOf (sl.drop i)

/-! ## FEM engine data model (storage.ts lines 951-1049) -/

structure Node where
  id : String
  x : ℚ
  y : ℚ
  z : ℚ
  /-- `[Fx, Fy, Fz, Mx, My, Mz]`, `true` = restrained. -/
  restraints : List Bool
  deriving DecidableEq, Repr

structure Element where
  id : String
  startNodeId : String
  endNodeId : String
  materialId : ℕ
  sectionId : ℕ
  type : String
  releases : String × String
  meshSize : Option ℚ
  deriving DecidableEq, Repr

structure Material where
  id : ℕ
  name : String
  elasticModulus : ℚ  -- GPa
  shearModulus : ℚ    -- GPa
  poissonRatio : ℚ
  density : ℚ
  yieldStrength : ℚ   -- MPa
  ultimateStrength : ℚ -- MPa
  thermalExpansion : ℚ
  deriving DecidableEq, Repr

structure Section where
  id : ℕ
  name : String
  type : String
  area : ℚ               -- cm²
  momentOfInertiaY : ℚ   -- cm⁴
  momentOfInertiaZ : ℚ   -- cm⁴
  torsionalConstant : ℚ  -- cm⁴
  warpingConstant : Option ℚ
  shearAreaY : ℚ
  shearAreaZ : ℚ
  sectionModulusY : ℚ    -- cm³
  sectionModulusZ : ℚ    -- cm³
  radiusOfGyrationY : ℚ  -- cm
  radiusOfGyrationZ : ℚ  -- cm
  deriving DecidableEq, Repr

structure Load where
  id : String
  type : String
  nodeId : Option String
  elementId : Option String
  magnitude : ℚ
  direction : String
  position : Option ℚ
  distributionEnd : Option ℚ
  loadCase : String
  deriving DecidableEq, Repr

structure LoadCase where
  id : String
  name : String
  type : String
  factor : ℚ
  deriving DecidableEq, Repr

structure LoadCombination where
  id : String
  name : String
  type : String
  factors : List (String × ℚ)
  deriving DecidableEq, Repr

/-- The `FEMEngine`'s model state: its `Map` fields as association lists in
insertion order. -/
structure FEMEngine where
  nodes : List (String × Node)
  elements : List (String × Element)
  materials : List (ℕ × Material)
  sections : List (ℕ × Section)
  loads : List (String × Load)
  loadCases : List (String × LoadCase)
  loadCombinations : List (String × LoadCombination)
  deriving Repr

def defaultNode : Node := ⟨"", 0, 0, 0, []⟩
def defaultElement : Element := ⟨"", "", "", 0, 0, "beam", ("000000", "000000"), none⟩
def defaultMaterial : Material := ⟨0, "", 0, 0, 0, 0, 0, 0, 0⟩
def defaultSection : Section := ⟨0, "", "", 0, 0, 0, 0, none, 0, 0, 0, 0, 0, 0⟩

/-! ## DOF mapping and assembly (storage.ts lines 1163-1302) -/

/-- Body of the per-component loop of `setupDOFMapping` (lines 1170-1176):
push the running counter for a free DOF, the sentinel `-1` for a restrained
one. -/
def dofStep (restraints : List Bool) (st : List ℤ × ℕ) (i : ℕ) : List ℤ × ℕ :=
  if restraints.getD i false then (st.1 ++ [(-1 : ℤ)], st.2)
  else (st.1 ++ [(st.2 : ℤ)], st.2 + 1)

/-- Body of the per-node loop of `setupDOFMapping` (lines 1168-1177). -/
def nodeStep (acc : List (String × List ℤ) × ℕ) (p : String × Node) :
    List (String × List ℤ) × ℕ :=
  let nodeDofs := (List.range 6).foldl (dofStep p.2.restraints) ([], acc.2)
  (acc.1 ++ [(p.1, nodeDofs.1)], nodeDofs.2)

/-- `setupDOFMapping` (lines 1163-1179): free DOFs numbered contiguously in
node-then-component order, restrained DOFs mapped to the sentinel `-1`.
Returns the DOF map and `totalDOFs`. -/
def setupDOFMapping (nodes : List (String × Node)) : List (String × List ℤ) × ℕ :=
  nodes.foldl nodeStep ([], 0)

/-- Local 12×12 beam stiffness entries, transcribing the assignment block of
`calculateBeamStiffnessMatrix` (lines 1224-1262); unassigned entries are 0. -/
def keEntry (E G A Iy Iz J L : ℚ) (i j : ℕ) : ℚ :=
  let EA_L := E * A / L
  let GJ_L := G * J / L
  let EIz_L3 := E * Iz / (L * L * L)
  let EIz_L2 := E * Iz / (L * L)
  let EIz_L := E * Iz / L
  let EIy_L3 := E * Iy / (L * L * L)
  let EIy_L2 := E * Iy / (L * L)
  let EIy_L := E * Iy / L
  match i, j with
  | 0, 0 => EA_L
  | 6, 6 => EA_L
  | 0, 6 => -EA_L
  | 6, 0 => -EA_L
  | 3, 3 => GJ_L
  | 9, 9 => GJ_L
  | 3, 9 => -GJ_L
  | 9, 3 => -GJ_L
  | 1, 1 => 12 * EIz_L3
  | 7, 7 => 12 * EIz_L3
  | 1, 7 => -12 * EIz_L3
  | 7, 1 => -12 * EIz_L3
  | 1, 5 => 6 * EIz_L2
  | 5, 1 => 6 * EIz_L2
  | 7, 11 => 6 * EIz_L2
  | 11, 7 => 6 * EIz_L2
  | 1, 11 => -6 * EIz_L2
  | 11, 1 => -6 * EIz_L2
  | 5, 7 => -6 * EIz_L2
  | 7, 5 => -6 * EIz_L2
  | 5, 5 => 4 * EIz_L
  | 11, 11 => 4 * EIz_L
  | 5, 11 => 2 * EIz_L
  | 11, 5 => 2 * EIz_L
  | 2, 2 => 12 * EIy_L3
  | 8, 8 => 12 * EIy_L3
  | 2, 8 => -12 * EIy_L3
  | 8, 2 => -12 * EIy_L3
  | 2, 4 => -6 * EIy_L2
  | 4, 2 => -6 * EIy_L2
  | 8, 10 => -6 * EIy_L2
  | 10, 8 => -6 * EIy_L2
  | 2, 10 => 6 * EIy_L2
  | 10, 2 => 6 * EIy_L2
  | 4, 8 => 6 * EIy_L2
  | 8, 4 => 6 * EIy_L2
  | 4, 4 => 4 * EIy_L
  | 10, 10 => 4 * EIy_L
  | 4, 10 => 2 * EIy_L
  | 10, 4 => 2 * EIy_L
  | _, _ => 0

/-- `calculateBeamStiffnessMatrix` (lines 1224-1262). -/
def calculateBeamStiffnessMatrix (E G A Iy Iz J L : ℚ) : Mat :=
  mkMat 12 12 (keEntry E G A Iy Iz J L)

/-- The 3×3 direction-cosine matrix of `calculateTransformationMatrix`
(lines 1268-1272), including its unnormalised second and third rows. -/
def dcmEntry (cx cy cz : ℚ) (r c : ℕ) : ℚ :=
  match r, c with
  | 0, 0 => cx
  | 0, 1 => cy
  | 0, 2 => cz
  | 1, 0 => -cy
  | 1, 1 => cx
  | 1, 2 => 0
  | 2, 0 => -cx * cz
  | 2, 1 => -cy * cz
  | 2, 2 => sqrtQ (cx * cx + cy * cy)
  | _, _ => 0

/-- `calculateTransformationMatrix` (lines 1264-1284): four diagonal 3×3
blocks, each the direction-cosine matrix; all other entries 0. -/
def calculateTransformationMatrix (cx cy cz : ℚ) : Mat :=
  mkMat 12 12 fun a b => if a / 3 = b / 3 then dcmEntry cx cy cz (a % 3) (b % 3) else 0

/-- `matrixMultiply` (lines 1446-1461): result has `A.length` rows and
`B[0].length` columns, accumulating `A[i][k] * B[k][j]` for `k < B.length`. -/
def matrixMultiply (A B : Mat) : Mat :=
  mkMat A.length (B.headD []).length fun i j =>
    ((List.range B.length).map fun k => mget A i k * mget B k j).sum

/-- `matrixTranspose` (lines 1463-1475). -/
def matrixTranspose (A : Mat) : Mat :=
  mkMat (A.headD []).length A.length fun i j => mget A j i

/-- `calculateElementStiffnessMatrix` (lines 1188-1222).  Unit conversions as
in the source (`1e9`, `1e-4`, `1e-8` as exact rationals).  Note the source has
no zero-length check: `L = 0` simply flows into the divisions (ℚ division by
zero yields 0 where JS yields NaN/Infinity; in both semantics no error is
signalled).  Missing map references, where the source's non-null assertion
would crash, are modelled by default records; no settled claim exercises
them. -/
def calculateElementStiffnessMatrix (eng : FEMEngine) (element : Element) : Mat :=
  let material := (List.lookup element.materialId eng.materials).getD defaultMaterial
  let sect := (List.lookup element.sectionId eng.sections).getD defaultSection
  let startNode := (List.lookup element.startNodeId eng.nodes).getD defaultNode
  let endNode := (List.lookup element.endNodeId eng.nodes).getD defaultNode
  let dx := endNode.x - startNode.x
  let dy := endNode.y - startNode.y
  let dz := endNode.z - startNode.z
  let L := sqrtQ (dx * dx + dy * dy + dz * dz)
  let cx := dx / L
  let cy := dy / L
  let cz := dz / L
  let E := material.elasticModulus * 1000000000
  let G := material.shearModulus * 1000000000
  let A := sect.area * (1 / 10000)
  let Iy := sect.momentOfInertiaY * (1 / 100000000)
  let Iz := sect.momentOfInertiaZ * (1 / 100000000)
  let J := sect.torsionalConstant * (1 / 100000000)
  let ke := calculateBeamStiffnessMatrix E G A Iy Iz J L
  let T := calculateTransformationMatrix cx cy cz
  matrixMultiply (matrixMultiply (matrixTranspose T) ke) T

/-- Body of the inner `j` loop of `assembleElementMatrix` (lines 1294-1299):
`K[globalI][globalJ] += ke[i][j]` when the column DOF is not restrained. -/
def assembleInner (elementDOFs : List ℤ) (ke : Mat) (gI : ℤ) (i : ℕ) (K : Mat) (j : ℕ) : Mat :=
  match elementDOFs[j]? with
  | some gJ => if 0 ≤ gJ then addAt K gI.toNat gJ.toNat (mget ke i j) else K
  | none => K

/-- Body of the outer `i` loop of `assembleElementMatrix` (lines 1291-1301):
skip the whole row when its DOF is restrained. -/
def assembleOuter (elementDOFs : List ℤ) (ke : Mat) (K : Mat) (i : ℕ) : Mat :=
  match elementDOFs[i]? with
  | some gI =>
    if 0 ≤ gI then (List.range 12).foldl (assembleInner elementDOFs ke gI i) K else K
  | none => K

/-- `assembleElementMatrix` (lines 1286-1302): scatter-add of the element's
12×12 global-frame block, skipping rows/columns whose DOF is the restrained
sentinel `-1`. -/
def assembleElementMatrix (dm : List (String × List ℤ)) (element : Element)
    (ke : Mat) (K : Mat) : Mat :=
  let startDOFs := (List.lookup element.startNodeId dm).getD []
  let endDOFs := (List.lookup element.endNodeId dm).getD []
  let elementDOFs := startDOFs ++ endDOFs
  (List.range 12).foldl (assembleOuter elementDOFs ke) K

/-- `buildGlobalStiffnessMatrix` (lines 1152-1161): DOF mapping, zero
initialisation, then per-element assembly.  Returns `(K, dofMap, totalDOFs)`. -/
def buildGlobalStiffnessMatrix (eng : FEMEngine) : Mat × List (String × List ℤ) × ℕ :=
  let dmn := setupDOFMapping eng.nodes
  let K := eng.elements.foldl
    (fun K p => assembleElementMatrix dmn.1 p.2 (calculateElementStiffnessMatrix eng p.2) K)
    (zeroMat dmn.2)
  (K, dmn.1, dmn.2)

/-! ## Load application (storage.ts lines 1305-1360) -/

/-- `['x','y','z','mx','my','mz'].indexOf(direction)`. -/
def directionIndex6 (d : String) : ℤ :=
  if d = "x" then 0 else if d = "y" then 1 else if d = "z" then 2
  else if d = "mx" then 3 else if d = "my" then 4 else if d = "mz" then 5 else -1

/-- `['x','y','z'].indexOf(direction)`. -/
def directionIndex3 (d : String) : ℤ :=
  if d = "x" then 0 else if d = "y" then 1 else if d = "z" then 2 else -1

/-- `applyNodalLoad` (lines 1321-1328). -/
def applyNodalLoad (dm : List (String × List ℤ)) (F : Vec) (nid : String)
    (load : Load) (factor : ℚ) : Vec :=
  let dofs := (List.lookup nid dm).getD []
  let di := directionIndex6 load.direction
  if 0 ≤ di then
    match dofs[di.toNat]? with
    | some g => if 0 ≤ g then vset F g.toNat (vget F g.toNat + load.magnitude * factor) else F
    | none => F
  else F

/-- `calculateElementLength` (lines 1353-1360). -/
def calculateElementLength (eng : FEMEngine) (element : Element) : ℚ :=
  let startNode := (List.lookup element.startNodeId eng.nodes).getD defaultNode
  let endNode := (List.lookup element.endNodeId eng.nodes).getD defaultNode
  let dx := endNode.x - startNode.x
  let dy := endNode.y - startNode.y
  let dz := endNode.z - startNode.z
  sqrtQ (dx * dx + dy * dy + dz * dz)

/-- `applyElementLoad` (lines 1330-1351): a distributed load lumps half the
total to each end node's DOF for the load's translational direction. -/
def applyElementLoad (eng : FEMEngine) (dm : List (String × List ℤ)) (F : Vec)
    (eid : String) (load : Load) (factor : ℚ) : Vec :=
  let element := (List.lookup eid eng.elements).getD defaultElement
  let L := calculateElementLength eng element
  if load.type = "distributed" then
    let totalLoad := load.magnitude * L * factor
    let startDOFs := (List.lookup element.startNodeId dm).getD []
    let endDOFs := (List.lookup element.endNodeId dm).getD []
    let di := directionIndex3 load.direction
    if 0 ≤ di then
      let F1 :=
        match startDOFs[di.toNat]? with
        | some g => if 0 ≤ g then vset F g.toNat (vget F g.toNat + totalLoad / 2) else F
        | none => F
      match endDOFs[di.toNat]? with
      | some g => if 0 ≤ g then vset F1 g.toNat (vget F1 g.toNat + totalLoad / 2) else F1
      | none => F1
    else F
  else F

/-- `applyLoads` (lines 1305-1319): zero the load vector, then add each load's
contribution scaled by the combination factor for its load case (absent load
cases contribute factor 0).  The source also looks up the load case record
with a non-null assertion but never uses it. -/
def applyLoads (eng : FEMEngine) (dm : List (String × List ℤ)) (n : ℕ)
    (loadCombination : LoadCombination) : Vec :=
  eng.loads.foldl
    (fun F p =>
      let load := p.2
      let factor := (List.lookup load.loadCase loadCombination.factors).getD 0
      match load.nodeId with
      | some nid => applyNodalLoad dm F nid load factor
      | none =>
        match load.elementId with
        | some eid => applyElementLoad eng dm F eid load factor
        | none => F)
    (List.replicate n 0)

/-! ## Linear solve (storage.ts lines 1362-1402) -/

def swapRows (A : Mat) (i j : ℕ) : Mat :=
  let ri := A.getD i []
  let rj := A.getD j []
  (A.set i rj).set j ri

/-- `gaussianElimination` (lines 1368-1402): forward elimination with partial
pivoting followed by back substitution.  Note the source contains no
singular-pivot check of any kind: a zero pivot is divided through (NaN in JS,
0 in this ℚ embedding) and a result vector is always produced. -/
def gaussianElimination (K : Mat) (F : Vec) (n : ℕ) : Vec :=
  let aug0 : Mat := (List.range n).map fun i => (K.getD i []) ++ [F.getD i 0]
  let aug := (List.range n).foldl
    (fun aug i =>
      let maxRow := (List.range' (i + 1) (n - (i + 1))).foldl
        (fun maxRow k => if |mget aug k i| > |mget aug maxRow i| then k else maxRow) i
      let aug1 := swapRows aug i maxRow
      (List.range' (i + 1) (n - (i + 1))).foldl
        (fun aug k =>
          let factor := mget aug k i / mget aug i i
          (List.range' i (n + 1 - i)).foldl
            (fun aug j => set2 aug k j (mget aug k j - factor * mget aug i j)) aug)
        aug1)
    aug0
  (List.range n).reverse.foldl
    (fun U i =>
      let s := (List.range' (i + 1) (n - (i + 1))).foldl
        (fun s j => s - mget aug i j * vget U j) (mget aug i n)
      vset U i (s / mget aug i i))
    (List.replicate n 0)

/-! ## Result extraction (storage.ts lines 1404-1575) -/

/-- `extractNodalDisplacements` (lines 1507-1519). -/
def extractNodalDisplacements (dm : List (String × List ℤ)) (U : Vec) :
    List (String × Vec) :=
  dm.map fun p => (p.1, p.2.map fun d => if 0 ≤ d then vget U d.toNat else 0)

/-- `calculateElementForces` (lines 1417-1443): gather the element's 12 end
displacements and recover end forces as `ke_global · u`. -/
def calculateElementForces (eng : FEMEngine) (dm : List (String × List ℤ))
    (U : Vec) (element : Element) : Vec :=
  let startDOFs := (List.lookup element.startNodeId dm).getD []
  let endDOFs := (List.lookup element.endNodeId dm).getD []
  let elementDisplacements := (startDOFs ++ endDOFs).map fun d =>
    if 0 ≤ d then vget U d.toNat else 0
  let ke := calculateElementStiffnessMatrix eng element
  (List.range 12).map fun i =>
    ((List.range 12).map fun j => mget ke i j * elementDisplacements.getD j 0).sum

/-- `calculateInternalForces` (lines 1405-1415). -/
def calculateInternalForces (eng : FEMEngine) (dm : List (String × List ℤ))
    (U : Vec) : List (String × Vec) :=
  eng.elements.map fun p => (p.1, calculateElementForces eng dm U p.2)

/-- `calculateStresses` (lines 1521-1548): axial and bending stresses only;
shear/torsion reported as 0. -/
def calculateStresses (eng : FEMEngine) (forces : List (String × Vec)) :
    List (String × Vec) :=
  forces.map fun p =>
    let element := (List.lookup p.1 eng.elements).getD defaultElement
    let sect := (List.lookup element.sectionId eng.sections).getD defaultSection
    let A := sect.area * (1 / 10000)
    let Wy := sect.sectionModulusY * (1 / 1000000)
    let Wz := sect.sectionModulusZ * (1 / 1000000)
    let axialStress := |vget p.2 0| / A
    let bendingStressY := |vget p.2 5| / Wy
    let bendingStressZ := |vget p.2 4| / Wz
    (p.1, [axialStress / 1000000, 0, 0, 0, bendingStressY / 1000000, bendingStressZ / 1000000])

/-- `calculateReactions` (lines 1550-1575): for each restrained DOF the source
reads `dofs[i]`, but restrained DOFs are mapped to `-1` by `setupDOFMapping`,
so the `globalDOF >= 0` guard fails and the initial `reaction = 0` is pushed. -/
def calculateReactions (eng : FEMEngine) (dm : List (String × List ℤ)) (F : Vec) :
    List (String × Vec) :=
  eng.nodes.map fun p =>
    let dofs := (List.lookup p.1 dm).getD []
    (p.1, (List.range 6).map fun i =>
      if p.2.restraints.getD i false then
        match dofs[i]? with
        | some g => if 0 ≤ g then vget F g.toNat else 0
        | none => 0
      else 0)

/-- The only error `analyzeStatic` can signal (line 1481): an unregistered
load combination id. -/
inductive AnalysisError
  | loadCombinationNotFound (id : String)
  deriving DecidableEq, Repr

structure AnalysisResults where
  displacements : List (String × Vec)
  forces : List (String × Vec)
  stresses : List (String × Vec)
  reactions : List (String × Vec)
  deriving DecidableEq, Repr

/-- The assembly/apply/solve/extract pipeline of `analyzeStatic`
(lines 1484-1504), for a combination that was found. -/
def runStatic (eng : FEMEngine) (loadCombination : LoadCombination) : AnalysisResults :=
  let b := buildGlobalStiffnessMatrix eng
  let K := b.1
  let dm := b.2.1
  let n := b.2.2
  let F := applyLoads eng dm n loadCombination
  let U := gaussianElimination K F n
  let forces := calculateInternalForces eng dm U
  { displacements := extractNodalDisplacements dm U
    forces := forces
    stresses := calculateStresses eng forces
    reactions := calculateReactions eng dm F }

/-- `analyzeStatic` (lines 1478-1505): the only throw is for an unregistered
load combination id (line 1481). -/
def analyzeStatic (eng : FEMEngine) (loadCombinationId : String) :
    Except AnalysisError AnalysisResults :=
  match List.lookup loadCombinationId eng.loadCombinations with
  | none => .error (.loadCombinationNotFound loadCombinationId)
  | some loadCombination => Except.ok (runStatic eng loadCombination)

/-! ## Concrete models used by the claims -/

/-- Steel S355 as registered by `initializeDefaultMaterials` (lines 1057-1067). -/
def steelS355 : Material :=
  { id := 1, name := "Steel S355", elasticModulus := 210, shearModulus := 81
    poissonRatio := 3/10, density := 7850, yieldStrength := 355
    ultimateStrength := 490, thermalExpansion := 12/1000000 }

/-- An IPE 240-like section whose governing moment of inertia is 3892 cm⁴ on
both principal axes (the cantilever claim's `I = 3892 cm⁴`). -/
def cantSection : Section :=
  { id := 1, name := "IPE 240", type := "I-beam", area := 391/10
    momentOfInertiaY := 3892, momentOfInertiaZ := 3892
    torsionalConstant := 698/100, warpingConstant := none
    shearAreaY := 132/10, shearAreaZ := 326/10
    sectionModulusY := 324, sectionModulusZ := 473/10
    radiusOfGyrationY := 997/100, radiusOfGyrationZ := 269/100 }

def fixedNode (nid : String) (x y z : ℚ) : Node :=
  ⟨nid, x, y, z, [true, true, true, true, true, true]⟩

def freeNode (nid : String) (x y z : ℚ) : Node :=
  ⟨nid, x, y, z, [false, false, false, false, false, false]⟩

def dlCase : LoadCase := ⟨"DL", "Dead Load", "dead", 1⟩

def comb1 : LoadCombination := ⟨"COMB1", "ULS", "ultimate", [("DL", 1)]⟩

/-- Cantilever model of the spec's single-element check: node A fixed at the
origin, node B free at (4,0,0), one beam element, a 10 kN point load in
global −y at B (SI load units consistent with the engine's SI stiffness). -/
def cantEngine : FEMEngine :=
  { nodes := [("A", fixedNode "A" 0 0 0), ("B", freeNode "B" 4 0 0)]
    elements := [("E1", ⟨"E1", "A", "B", 1, 1, "beam", ("000000", "000000"), none⟩)]
    materials := [(1, steelS355)]
    sections := [(1, cantSection)]
    loads := [("L1", ⟨"L1", "point", some "B", none, -10000, "y", none, none, "DL"⟩)]
    loadCases := [("DL", dlCase)]
    loadCombinations := [("COMB1", comb1)] }

/-- A model with a single completely unrestrained node: its global stiffness
matrix is the 6×6 zero matrix (maximally singular). -/
def freeEngine : FEMEngine :=
  { nodes := [("N1", freeNode "N1" 0 0 0)]
    elements := []
    materials := [(1, steelS355)]
    sections := [(1, cantSection)]
    loads := [("L1", ⟨"L1", "point", some "N1", none, -10000, "y", none, none, "DL"⟩)]
    loadCases := [("DL", dlCase)]
    loadCombinations := [("COMB1", comb1)] }

/-- A model containing a zero-length element (both end nodes at the origin). -/
def zeroLenEngine : FEMEngine :=
  { nodes := [("A", fixedNode "A" 0 0 0), ("B", freeNode "B" 0 0 0)]
    elements := [("E1", ⟨"E1", "A", "B", 1, 1, "beam", ("000000", "000000"), none⟩)]
    materials := [(1, steelS355)]
    sections := [(1, cantSection)]
    loads := []
    loadCases := [("DL", dlCase)]
    loadCombinations := [("COMB1", comb1)] }

/-- The closed-form cantilever tip deflection `P·L³/(3EI)` in SI units for
P = 10 kN, L = 4 m, E = 210 GPa, I = 3892 cm⁴. -/
def cantDelta : ℚ := (10000 * 4 ^ 3) / (3 * (210 * 1000000000) * (3892 / 100000000))

/-- The analysis output of the cantilever run. -/
def cantOut : AnalysisResults :=
  (analyzeStatic cantEngine "COMB1").toOption.getD ⟨[], [], [], []⟩

/-- The computed y-displacement at the cantilever tip node B. -/
def cantTipDispY : ℚ := vget ((List.lookup "B" cantOut.displacements).getD []) 1

/-- The analysis output of the singular (fully free) model. -/
def freeOut : AnalysisResults :=
  (analyzeStatic freeEngine "COMB1").toOption.getD ⟨[], [], [], []⟩

/-- Total applied nodal load in the global y direction for the cantilever
model under combination `COMB1` (one point load of −10000 N at B). -/
def cantAppliedY : ℚ :=
  ((cantEngine.loads.filter fun p => p.2.direction = "y").map
    fun p => p.2.magnitude * ((List.lookup p.2.loadCase comb1.factors).getD 0)).sum

/-- Sum of the y-components of all support reactions reported for the
cantilever model. -/
def cantReactionSumY : ℚ := (cantOut.reactions.map fun p => vget p.2 1).sum

/-- The standard uncoupled Euler-Bernoulli 3D beam stiffness matrix stated by
the spec (axial `±EA/L`, torsional `±GJ/L`, and per bending plane the standard
`12EI/L³, 6EI/L², 4EI/L, 2EI/L` block in the standard sign pattern, under
which rigid-body end-displacement patterns map to zero force).  Written from
the spec's words for comparison with `calculateBeamStiffnessMatrix`. -/
def stdKeEntry (E G A Iy Iz J L : ℚ) (i j : ℕ) : ℚ :=
  let EA_L := E * A / L
  let GJ_L := G * J / L
  let EIz_L3 := E * Iz / (L * L * L)
  let EIz_L2 := E * Iz / (L * L)
  let EIz_L := E * Iz / L
  let EIy_L3 := E * Iy / (L * L * L)
  let EIy_L2 := E * Iy / (L * L)
  let EIy_L := E * Iy / L
  match i, j with
  | 0, 0 => EA_L
  | 6, 6 => EA_L
  | 0, 6 => -EA_L
  | 6, 0 => -EA_L
  | 3, 3 => GJ_L
  | 9, 9 => GJ_L
  | 3, 9 => -GJ_L
  | 9, 3 => -GJ_L
  | 1, 1 => 12 * EIz_L3
  | 7, 7 => 12 * EIz_L3
  | 1, 7 => -12 * EIz_L3
  | 7, 1 => -12 * EIz_L3
  | 1, 5 => 6 * EIz_L2
  | 5, 1 => 6 * EIz_L2
  | 1, 11 => 6 * EIz_L2
  | 11, 1 => 6 * EIz_L2
  | 5, 7 => -6 * EIz_L2
  | 7, 5 => -6 * EIz_L2
  | 7, 11 => -6 * EIz_L2
  | 11, 7 => -6 * EIz_L2
  | 5, 5 => 4 * EIz_L
  | 11, 11 => 4 * EIz_L
  | 5, 11 => 2 * EIz_L
  | 11, 5 => 2 * EIz_L
  | 2, 2 => 12 * EIy_L3
  | 8, 8 => 12 * EIy_L3
  | 2, 8 => -12 * EIy_L3
  | 8, 2 => -12 * EIy_L3
  | 2, 4 => -6 * EIy_L2
  | 4, 2 => -6 * EIy_L2
  | 2, 10 => -6 * EIy_L2
  | 10, 2 => -6 * EIy_L2
  | 4, 8 => 6 * EIy_L2
  | 8, 4 => 6 * EIy_L2
  | 8, 10 => 6 * EIy_L2
  | 10, 8 => 6 * EIy_L2
  | 4, 4 => 4 * EIy_L
  | 10, 10 => 4 * EIy_L
  | 4, 10 => 2 * EIy_L
  | 10, 4 => 2 * EIy_L
  | _, _ => 0

/-- The spec's standard beam stiffness matrix as a 12×12 matrix. -/
def standardBeamStiffness (E G A Iy Iz J L : ℚ) : Mat :=
  mkMat 12 12 (stdKeEntry E G A Iy Iz J L)

/-- `M · u` for a 12×12 matrix and a 12-vector of end displacements. -/
def matVec12 (M : Mat) (u : Vec) : Vec :=
  (List.range 12).map fun i => ((List.range 12).map fun j => mget M i j * vget u j).sum

/-- Rigid-body end-displacement pattern for the y/θz bending plane with unit
length: unit rotation θz about the start node, so v₂ = L = 1, θz₁ = θz₂ = 1. -/
def rigidRotZ : Vec := [0, 0, 0, 0, 0, 1, 0, 1, 0, 0, 0, 1]

/-! ## Staged evaluation of the cantilever analysis

The full `analyzeStatic` pipeline is evaluated in stages (assembled matrix,
load vector, solved displacements, extracted results), each stage checked
against an explicit literal by kernel reduction, so that no single reduction
is deep. -/

/-- The assembled 6×6 global stiffness matrix of the cantilever model (the
six free DOFs of node B). -/
def K6 : Mat :=
  [[205275000, 0, 0, 0, 0, 0],
   [0, 1532475, 0, 0, 0, 3064950],
   [0, 0, 1532475, 0, -3064950, 0],
   [0, 0, 0, (28269 : ℚ)/20, 0, 0],
   [0, 0, -3064950, 0, 8173200, 0],
   [0, 3064950, 0, 0, 0, 8173200]]

/-- The cantilever model's DOF map: node A fully restrained, node B free. -/
def dm6 : List (String × List ℤ) := [("A", [-1, -1, -1, -1, -1, -1]), ("B", [0, 1, 2, 3, 4, 5])]

/-- The cantilever load vector: −10000 N at node B's y-DOF. -/
def F6 : Vec := [0, -10000, 0, 0, 0, 0]

/-- The solved free-DOF displacements of the cantilever model. -/
def U6 : Vec := [0, (-1600 : ℚ)/61299, 0, 0, 0, (200 : ℚ)/20433]

/-- The full analysis record produced for the cantilever model. -/
def cantRes : AnalysisResults :=
  { displacements := [("A", [0, 0, 0, 0, 0, 0]), ("B", U6)]
    forces := [("E1", [0, 10000, 0, 0, 0, 120000, 0, -10000, 0, 0, 0, 0])]
    stresses := [("E1", [0, 0, 0, 0, (10000 : ℚ)/27, 0])]
    reactions := [("A", [0, 0, 0, 0, 0, 0]), ("B", [0, 0, 0, 0, 0, 0])] }

set_option maxRecDepth 100000 in
lemma cant_build : buildGlobalStiffnessMatrix cantEngine = (K6, dm6, 6) := by
  with_unfolding_all rfl

set_option maxRecDepth 100000 in
lemma cant_loads : applyLoads cantEngine dm6 6 comb1 = F6 := by
  with_unfolding_all rfl

set_option maxRecDepth 100000 in
lemma cant_gauss : gaussianElimination K6 F6 6 = U6 := by
  with_unfolding_all rfl

set_option maxRecDepth 100000 in
lemma cant_disp : extractNodalDisplacements dm6 U6 = cantRes.displacements := by
  with_unfolding_all rfl

set_option maxRecDepth 100000 in
lemma cant_forces : calculateInternalForces cantEngine dm6 U6 = cantRes.forces := by
  with_unfolding_all rfl

set_option maxRecDepth 100000 in
lemma cant_stresses : calculateStresses cantEngine cantRes.forces = cantRes.stresses := by
  with_unfolding_all rfl

set_option maxRecDepth 100000 in
lemma cant_reactions : calculateReactions cantEngine dm6 F6 = cantRes.reactions := by
  with_unfolding_all rfl

lemma cant_run : runStatic cantEngine comb1 = cantRes := by
  unfold runStatic
  simp only [cant_build, cant_loads, cant_gauss, cant_disp, cant_forces,
    cant_stresses, cant_reactions]

lemma cant_static : analyzeStatic cantEngine "COMB1" = Except.ok cantRes := by
  have hlk : List.lookup "COMB1" cantEngine.loadCombinations = some comb1 := by
    with_unfolding_all rfl
  unfold analyzeStatic
  rw [hlk]
  exact congrArg Except.ok cant_run

lemma cant_out : cantOut = cantRes := by
  unfold cantOut
  rw [cant_static]
  rfl

/-! ## Claims C1-C6 -/

set_option maxRecDepth 100000 in
/-- C1.  The spec requires `analyzeStatic` to fail with a
`SingularSystemError` on a singular global stiffness matrix (for example a
model with a fully unrestrained node), detected by a pivot-magnitude check in
the Gaussian elimination.  The code has no such check anywhere: on the
one-free-node model, whose 6×6 global stiffness matrix is identically zero,
the analysis runs to completion and returns a full 6-component displacement
vector for the node (NaN-valued in JS, where the zero pivots are divided
through) instead of failing. -/
theorem singular_system_not_detected :
    (analyzeStatic freeEngine "COMB1").isOk = true ∧
    ((List.lookup "N1" freeOut.displacements).getD []).length = 6 :=
  of_decide_eq_true (by with_unfolding_all rfl)

set_option maxRecDepth 100000 in
/-- C2.  The spec requires each restrained DOF's reaction to equal the sum of
element end-forces and applied loads there, giving global equilibrium.  In
`calculateReactions`, restrained DOFs are mapped to `-1` by
`setupDOFMapping`, so the `globalDOF >= 0` guard always fails and every
reaction is reported as 0.  On the cantilever model the element end-force at
the fixed node's y-DOF is 10000 N, yet the reported reaction is 0, and the
sum of applied loads plus reactions is −10000 N, not 0. -/
theorem reactions_always_zero :
    List.lookup "A" cantOut.reactions = some [0, 0, 0, 0, 0, 0] ∧
    vget ((List.lookup "E1" cantOut.forces).getD []) 1 = 10000 ∧
    cantAppliedY + cantReactionSumY = -10000 ∧
    (-10000 : ℚ) ≠ 0 := by
  simp only [cantReactionSumY, cantAppliedY, cant_out]
  refine ⟨?_, ?_, ?_, ?_⟩
  · with_unfolding_all rfl
  · with_unfolding_all rfl
  · with_unfolding_all rfl
  · exact of_decide_eq_true (by with_unfolding_all rfl)

set_option maxRecDepth 100000 in
/-- C3.  On the one-element cantilever (L = 4 m, E = 210 GPa, I = 3892 cm⁴,
node A fully fixed, 10 kN point load in global −y at the free node B),
`analyzeStatic` succeeds and the tip y-displacement magnitude equals the
closed-form `P·L³/(3EI)` — exactly, in this rational-arithmetic embedding,
hence in particular within the claimed 1 % relative tolerance. -/
theorem cantilever_tip_matches_formula :
    (analyzeStatic cantEngine "COMB1").isOk = true ∧
    |cantTipDispY| = cantDelta ∧
    |(|cantTipDispY| - cantDelta)| ≤ cantDelta / 100 := by
  simp only [cantTipDispY, cant_out, cant_static]
  refine ⟨?_, ?_, ?_⟩
  · with_unfolding_all rfl
  · with_unfolding_all rfl
  · exact of_decide_eq_true (by with_unfolding_all rfl)

/-- C4.  The spec says the local matrix equals the standard Euler-Bernoulli
beam stiffness matrix, whose bending blocks annihilate rigid-body
end-displacement patterns.  The code's matrix differs: the `6EI/L²`
couplings carry `+` on same-node translation/rotation pairs and `−` on
cross-node pairs (the standard pattern is `+` for couplings with the first
node's translation and `−` for the second's).  At E = G = A = Iy = Iz = J =
L = 1, entry (7,11) is +6 where the standard matrix has −6, and the
rigid-rotation pattern `rigidRotZ` produces a −12 shear at the first node
instead of the zero force the standard matrix yields. -/
theorem beamStiffness_sign_pattern_wrong :
    mget (calculateBeamStiffnessMatrix 1 1 1 1 1 1 1) 7 11 = 6 ∧
    mget (standardBeamStiffness 1 1 1 1 1 1 1) 7 11 = -6 ∧
    vget (matVec12 (calculateBeamStiffnessMatrix 1 1 1 1 1 1 1) rigidRotZ) 1 = -12 ∧
    matVec12 (standardBeamStiffness 1 1 1 1 1 1 1) rigidRotZ = List.replicate 12 0 :=
  of_decide_eq_true (by with_unfolding_all rfl)

/-- C5.  The spec requires a `DegenerateElementError` for a zero-length
element (coincident nodes), aborting the analysis.  The code computes the
element length and divides by it with no check of any kind: on a model whose
only element has both nodes at the origin, the length is 0 and the analysis
still completes without signalling any error (in JS the stiffness entries
become NaN/Infinity and flow on silently). -/
theorem zero_length_element_not_rejected :
    calculateElementLength zeroLenEngine
      ((List.lookup "E1" zeroLenEngine.elements).getD defaultElement) = 0 ∧
    (analyzeStatic zeroLenEngine "COMB1").isOk = true :=
  of_decide_eq_true (by with_unfolding_all rfl)

/-- C6.  The spec requires the transformation matrix to be the block-diagonal
expansion of a proper orthonormal rotation, with a fallback local-axis choice
for elements parallel to the global vertical axis.  The code has no fallback:
for the vertical direction (0,0,1) the second and third rows of each 3×3
block are `[-cy, cx, 0] = [0,0,0]` and `[-cx·cz, -cy·cz, √(cx²+cy²)] =
[0,0,0]`, so the produced 12×12 matrix has zero rows and is not a rotation. -/
theorem vertical_transformation_has_zero_rows :
    (calculateTransformationMatrix 0 0 1).getD 1 [] = List.replicate 12 0 ∧
    (calculateTransformationMatrix 0 0 1).getD 2 [] = List.replicate 12 0 ∧
    dcmEntry 0 0 1 0 2 = 1 :=
  of_decide_eq_true (by with_unfolding_all rfl)

/-! ## Claim C9: symmetry of the assembled global stiffness matrix -/

/-- A matrix is symmetric entrywise (under the JS-style defaulted read). -/
def IsSymmMat (K : Mat) : Prop := ∀ a b : ℕ, mget K a b = mget K b a

lemma getD_replicate {α : Type} (n i : ℕ) (x d : α) :
    (List.replicate n x).getD i d = if i < n then x else d := by
  induction n generalizing i with
  | zero => simp
  | succ m ih =>
    cases i with
    | zero => simp
    | succ k =>
      rw [List.replicate_succ, List.getD_cons_succ]
      simpa [Nat.succ_lt_succ_iff] using ih k

lemma getD_set {α : Type} (l : List α) (i j : ℕ) (v d : α) :
    (l.set i v).getD j d = if i = j ∧ j < l.length then v else l.getD j d := by
  induction l generalizing i j with
  | nil => simp
  | cons a t ih =>
    cases i with
    | zero =>
      cases j with
      | zero => simp
      | succ m => simp
    | succ k =>
      cases j with
      | zero => simp
      | succ m => simpa [Nat.succ_lt_succ_iff] using ih k m

lemma set_oob {α : Type} (l : List α) (i : ℕ) (v : α) (h : l.length ≤ i) :
    l.set i v = l := by
  induction l generalizing i with
  | nil => simp
  | cons a t ih =>
    cases i with
    | zero => simp at h
    | succ k => simpa using ih k (by simpa using h)

lemma mem_of_getElem2 {α : Type} {l : List α} {i : ℕ} {a : α}
    (h : l[i]? = some a) : a ∈ l := by
  induction l generalizing i with
  | nil => simp at h
  | cons b t ih =>
    cases i with
    | zero =>
      simp at h
      subst h
      exact List.mem_cons_self _ _
    | succ k =>
      simp at h
      exact List.mem_cons_of_mem _ (ih h)

lemma getD_mem {α : Type} (l : List α) (i : ℕ) (d : α) (h : i < l.length) :
    l.getD i d ∈ l := by
  induction l generalizing i with
  | nil => simp at h
  | cons a t ih =>
    cases i with
    | zero => simp
    | succ k =>
      simp only [List.getD_cons_succ]
      exact List.mem_cons_of_mem _ (ih k (by simpa using h))

lemma lookup_mem {β : Type} {l : List (String × β)} {k : String} {v : β}
    (h : List.lookup k l = some v) : (k, v) ∈ l := by
  induction l with
  | nil => simp [List.lookup] at h
  | cons p t ih =>
    obtain ⟨pk, pv⟩ := p
    simp only [List.lookup] at h
    cases hbe : (k == pk) with
    | true =>
      rw [hbe] at h
      simp only [Option.some.injEq] at h
      subst h
      have : k = pk := by simpa using hbe
      subst this
      exact List.mem_cons_self _ _
    | false =>
      rw [hbe] at h
      exact List.mem_cons_of_mem _ (ih h)

lemma getD_map_range {α : Type} (r i : ℕ) (g : ℕ → α) (d : α) :
    ((List.range r).map g).getD i d = if i < r then g i else d := by
  rw [List.getD_eq_getElem?_getD, List.getElem?_map]
  by_cases hi : i < r
  · rw [List.getElem?_range hi]
    simp [hi]
  · rw [List.getElem?_eq_none (by simpa using not_lt.1 hi)]
    simp [hi]

lemma mget_mkMat (r c : ℕ) (f : ℕ → ℕ → ℚ) (i j : ℕ) :
    mget (mkMat r c f) i j = if i < r ∧ j < c then f i j else 0 := by
  unfold mget mkMat
  rw [getD_map_range]
  by_cases hi : i < r
  · rw [if_pos hi, getD_map_range]
    by_cases hj : j < c
    · rw [if_pos hj, if_pos ⟨hi, hj⟩]
    · rw [if_neg hj, if_neg (by tauto)]
  · rw [if_neg hi, if_neg (by tauto)]
    simp

lemma mkMat_congr (r c : ℕ) (f g : ℕ → ℕ → ℚ)
    (h : ∀ i j, i < r → j < c → f i j = g i j) : mkMat r c f = mkMat r c g := by
  unfold mkMat
  refine List.map_congr_left fun i hi => ?_
  refine List.map_congr_left fun j hj => ?_
  exact h i j (List.mem_range.1 hi) (List.mem_range.1 hj)

lemma sum_map_range (r : ℕ) (g : ℕ → ℚ) :
    ((List.range r).map g).sum = ∑ k ∈ Finset.range r, g k := by
  induction r with
  | zero => simp
  | succ m ih => rw [List.range_succ, List.map_append, List.sum_append,
      Finset.sum_range_succ, ih]; simp

lemma matrixTranspose_mkMat12 (g : ℕ → ℕ → ℚ) :
    matrixTranspose (mkMat 12 12 g) = mkMat 12 12 fun i j => g j i := by
  have h : matrixTranspose (mkMat 12 12 g)
      = mkMat 12 12 fun i j => mget (mkMat 12 12 g) j i := rfl
  rw [h]
  refine mkMat_congr _ _ _ _ fun i j hi hj => ?_
  rw [mget_mkMat, if_pos ⟨hj, hi⟩]

lemma matrixMultiply_mkMat12 (a b : ℕ → ℕ → ℚ) :
    matrixMultiply (mkMat 12 12 a) (mkMat 12 12 b)
      = mkMat 12 12 fun i j => ∑ k ∈ Finset.range 12, a i k * b k j := by
  have h : matrixMultiply (mkMat 12 12 a) (mkMat 12 12 b)
      = mkMat 12 12 fun i j =>
        ((List.range 12).map fun k =>
          mget (mkMat 12 12 a) i k * mget (mkMat 12 12 b) k j).sum := rfl
  rw [h]
  refine mkMat_congr _ _ _ _ fun i j hi hj => ?_
  rw [sum_map_range]
  refine Finset.sum_congr rfl fun k hk => ?_
  rw [mget_mkMat, mget_mkMat, if_pos ⟨hi, Finset.mem_range.1 hk⟩,
    if_pos ⟨Finset.mem_range.1 hk, hj⟩]

lemma congruence_symm (f g : ℕ → ℕ → ℚ)
    (hf : ∀ i j, i < 12 → j < 12 → f i j = f j i) (a b : ℕ) :
    mget (matrixMultiply (matrixMultiply (matrixTranspose (mkMat 12 12 g))
        (mkMat 12 12 f)) (mkMat 12 12 g)) a b
      = mget (matrixMultiply (matrixMultiply (matrixTranspose (mkMat 12 12 g))
        (mkMat 12 12 f)) (mkMat 12 12 g)) b a := by
  rw [matrixTranspose_mkMat12, matrixMultiply_mkMat12, matrixMultiply_mkMat12]
  rw [mget_mkMat, mget_mkMat]
  by_cases ha : a < 12
  · by_cases hb : b < 12
    · rw [if_pos ⟨ha, hb⟩, if_pos ⟨hb, ha⟩]
      simp_rw [Finset.sum_mul]
      rw [Finset.sum_comm]
      refine Finset.sum_congr rfl fun x hx => Finset.sum_congr rfl fun y hy => ?_
      rw [hf x y (Finset.mem_range.1 hx) (Finset.mem_range.1 hy)]
      ring
    · rw [if_neg (by tauto), if_neg (by tauto)]
  · rw [if_neg (by tauto), if_neg (by tauto)]

set_option maxHeartbeats 1000000 in
lemma keEntry_symm (E G A Iy Iz J L : ℚ) (i j : ℕ) (hi : i < 12) (hj : j < 12) :
    keEntry E G A Iy Iz J L i j = keEntry E G A Iy Iz J L j i := by
  interval_cases i <;> interval_cases j <;> rfl

lemma calculateElementStiffnessMatrix_symm (eng : FEMEngine) (element : Element)
    (a b : ℕ) :
    mget (calculateElementStiffnessMatrix eng element) a b
      = mget (calculateElementStiffnessMatrix eng element) b a := by
  unfold calculateElementStiffnessMatrix calculateBeamStiffnessMatrix
    calculateTransformationMatrix
  exact congruence_symm _ _
    (fun i j hi hj => keEntry_symm _ _ _ _ _ _ _ i j hi hj) a b

/-- Shape invariant: `K` is an `n × n` list-of-lists matrix. -/
def Reg (n : ℕ) (K : Mat) : Prop := K.length = n ∧ ∀ row ∈ K, row.length = n

lemma reg_zeroMat (n : ℕ) : Reg n (zeroMat n) :=
  ⟨by simp [zeroMat], fun row hrow => by
    rw [List.eq_of_mem_replicate hrow]; simp⟩

lemma mget_zeroMat (n a b : ℕ) : mget (zeroMat n) a b = 0 := by
  unfold mget zeroMat
  rw [getD_replicate]
  split
  · rw [getD_replicate]
    split <;> rfl
  · rfl

lemma reg_set2 {n : ℕ} {K : Mat} (h : Reg n K) (i j : ℕ) (v : ℚ) :
    Reg n (set2 K i j v) := by
  refine ⟨by simpa [set2] using h.1, ?_⟩
  intro row hrow
  by_cases hi : i < K.length
  · unfold set2 at hrow
    rcases List.mem_or_eq_of_mem_set hrow with hmem | heq
    · exact h.2 row hmem
    · subst heq
      rw [List.length_set]
      exact h.2 _ (getD_mem K i [] hi)
  · rw [set2, set_oob K i _ (not_lt.1 hi)] at hrow
    exact h.2 row hrow

lemma reg_addAt {n : ℕ} {K : Mat} (h : Reg n K) (i j : ℕ) (v : ℚ) :
    Reg n (addAt K i j v) := reg_set2 h i j _

lemma mget_set2 (K : Mat) (i j a b : ℕ) (v : ℚ) (hi : i < K.length)
    (hj : j < (K.getD i []).length) :
    mget (set2 K i j v) a b = if i = a ∧ j = b then v else mget K a b := by
  unfold set2 mget
  rw [getD_set]
  by_cases hia : i = a
  · subst hia
    rw [if_pos ⟨rfl, hi⟩, getD_set]
    by_cases hjb : j = b
    · subst hjb
      rw [if_pos ⟨rfl, hj⟩, if_pos ⟨rfl, rfl⟩]
    · rw [if_neg (by tauto), if_neg (by tauto)]
  · rw [if_neg (by tauto), if_neg (by tauto)]

lemma mget_addAt {n : ℕ} {K : Mat} (hK : Reg n K) {i j : ℕ} (hi : i < n)
    (hj : j < n) (v : ℚ) (a b : ℕ) :
    mget (addAt K i j v) a b = mget K a b + if i = a ∧ j = b then v else 0 := by
  have hi' : i < K.length := hK.1 ▸ hi
  have hj' : j < (K.getD i []).length := by
    rw [hK.2 _ (getD_mem K i [] hi')]
    exact hj
  unfold addAt
  rw [mget_set2 K i j a b _ hi' hj']
  split
  · next h =>
    obtain ⟨h1, h2⟩ := h
    subst h1
    subst h2
    rfl
  · rw [add_zero]

/-- Every DOF index in the map is either the restrained sentinel `-1` or a
valid index below `n`. -/
def DofBound (n : ℕ) (dm : List (String × List ℤ)) : Prop :=
  ∀ p ∈ dm, ∀ d ∈ p.2, d = -1 ∨ (0 ≤ d ∧ d.toNat < n)

lemma dofStep_fold (rs : List Bool) :
    ∀ (l : List ℕ) (st : List ℤ × ℕ),
    (∀ d ∈ st.1, d = -1 ∨ (0 ≤ d ∧ d.toNat < st.2)) →
    (∀ d ∈ (l.foldl (dofStep rs) st).1,
        d = -1 ∨ (0 ≤ d ∧ d.toNat < (l.foldl (dofStep rs) st).2))
      ∧ st.2 ≤ (l.foldl (dofStep rs) st).2 := by
  intro l
  induction l with
  | nil => intro st h; exact ⟨h, le_refl _⟩
  | cons x xs ih =>
    intro st h
    have hstep : (∀ d ∈ (dofStep rs st x).1,
        d = -1 ∨ (0 ≤ d ∧ d.toNat < (dofStep rs st x).2))
        ∧ st.2 ≤ (dofStep rs st x).2 := by
      unfold dofStep
      split
      · refine ⟨fun d hd => ?_, le_refl _⟩
        rcases List.mem_append.1 hd with h1 | h2
        · exact h d h1
        · left; simpa using h2
      · refine ⟨fun d hd => ?_, Nat.le_succ _⟩
        rcases List.mem_append.1 hd with h1 | h2
        · rcases h d h1 with h3 | ⟨h4, h5⟩
          · left; exact h3
          · right; exact ⟨h4, Nat.lt_succ_of_lt h5⟩
        · right
          have hde : d = (st.2 : ℤ) := by simpa using h2
          subst hde
          exact ⟨Int.ofNat_nonneg _, by simp⟩
    obtain ⟨h1, h2⟩ := hstep
    obtain ⟨h3, h4⟩ := ih (dofStep rs st x) h1
    exact ⟨h3, le_trans h2 h4⟩

lemma nodeStep_fold :
    ∀ (nodes : List (String × Node)) (acc : List (String × List ℤ) × ℕ),
    (∀ p ∈ acc.1, ∀ d ∈ p.2, d = -1 ∨ (0 ≤ d ∧ d.toNat < acc.2)) →
    (∀ p ∈ (nodes.foldl nodeStep acc).1, ∀ d ∈ p.2,
        d = -1 ∨ (0 ≤ d ∧ d.toNat < (nodes.foldl nodeStep acc).2))
      ∧ acc.2 ≤ (nodes.foldl nodeStep acc).2 := by
  intro nodes
  induction nodes with
  | nil => intro acc h; exact ⟨h, le_refl _⟩
  | cons nd nds ih =>
    intro acc h
    have hstep : (∀ p ∈ (nodeStep acc nd).1, ∀ d ∈ p.2,
        d = -1 ∨ (0 ≤ d ∧ d.toNat < (nodeStep acc nd).2))
        ∧ acc.2 ≤ (nodeStep acc nd).2 := by
      unfold nodeStep
      obtain ⟨hdofs, hmono⟩ :=
        dofStep_fold nd.2.restraints (List.range 6) ([], acc.2) (by simp)
      refine ⟨?_, hmono⟩
      intro p hp d hd
      rcases List.mem_append.1 hp with h1 | h2
      · rcases h p h1 d hd with h3 | ⟨h4, h5⟩
        · left; exact h3
        · right; exact ⟨h4, lt_of_lt_of_le h5 hmono⟩
      · have hpe : p = (nd.1,
            ((List.range 6).foldl (dofStep nd.2.restraints) ([], acc.2)).1) := by
          simpa using h2
        subst hpe
        exact hdofs d hd
    obtain ⟨h1, h2⟩ := hstep
    obtain ⟨h3, h4⟩ := ih _ h1
    exact ⟨h3, le_trans h2 h4⟩

lemma setupDOFMapping_bound (nodes : List (String × Node)) :
    DofBound (setupDOFMapping nodes).2 (setupDOFMapping nodes).1 :=
  fun p hp d hd => (nodeStep_fold nodes ([], 0) (by simp)).1 p hp d hd

/-- The exact contribution of source row `i`, column `j` of the element block
to global entry `(a, b)` during assembly. -/
def pairContrib (eDOFs : List ℤ) (ke : Mat) (i j a b : ℕ) : ℚ :=
  match eDOFs[i]?, eDOFs[j]? with
  | some gI, some gJ =>
    if 0 ≤ gI ∧ 0 ≤ gJ ∧ gI.toNat = a ∧ gJ.toNat = b then mget ke i j else 0
  | _, _ => 0

/-- Contribution of column `j` inside a row whose DOF `gI` is already known
to be unrestrained. -/
def innerContrib (eDOFs : List ℤ) (ke : Mat) (gI : ℤ) (i j a b : ℕ) : ℚ :=
  match eDOFs[j]? with
  | some gJ => if 0 ≤ gJ ∧ gI.toNat = a ∧ gJ.toNat = b then mget ke i j else 0
  | none => 0

lemma assembleInner_some (eDOFs : List ℤ) (ke : Mat) (gI : ℤ) (i : ℕ) (K : Mat)
    {j : ℕ} {gJ : ℤ} (hj : eDOFs[j]? = some gJ) :
    assembleInner eDOFs ke gI i K j
      = if 0 ≤ gJ then addAt K gI.toNat gJ.toNat (mget ke i j) else K := by
  unfold assembleInner
  rw [hj]

lemma assembleInner_none (eDOFs : List ℤ) (ke : Mat) (gI : ℤ) (i : ℕ) (K : Mat)
    {j : ℕ} (hj : eDOFs[j]? = none) : assembleInner eDOFs ke gI i K j = K := by
  unfold assembleInner
  rw [hj]

lemma innerContrib_some (eDOFs : List ℤ) (ke : Mat) (gI : ℤ) (i a b : ℕ)
    {j : ℕ} {gJ : ℤ} (hj : eDOFs[j]? = some gJ) :
    innerContrib eDOFs ke gI i j a b
      = if 0 ≤ gJ ∧ gI.toNat = a ∧ gJ.toNat = b then mget ke i j else 0 := by
  unfold innerContrib
  rw [hj]

lemma innerContrib_none (eDOFs : List ℤ) (ke : Mat) (gI : ℤ) (i a b : ℕ)
    {j : ℕ} (hj : eDOFs[j]? = none) : innerContrib eDOFs ke gI i j a b = 0 := by
  unfold innerContrib
  rw [hj]

lemma assembleOuter_some (eDOFs : List ℤ) (ke : Mat) (K : Mat)
    {i : ℕ} {gI : ℤ} (hi : eDOFs[i]? = some gI) :
    assembleOuter eDOFs ke K i
      = if 0 ≤ gI then (List.range 12).foldl (assembleInner eDOFs ke gI i) K
        else K := by
  unfold assembleOuter
  rw [hi]

lemma assembleOuter_none (eDOFs : List ℤ) (ke : Mat) (K : Mat)
    {i : ℕ} (hi : eDOFs[i]? = none) : assembleOuter eDOFs ke K i = K := by
  unfold assembleOuter
  rw [hi]

lemma inner_fold {n : ℕ} (eDOFs : List ℤ) (ke : Mat) (gI : ℤ) (i : ℕ)
    (hD : ∀ d ∈ eDOFs, d = -1 ∨ (0 ≤ d ∧ d.toNat < n)) (hgI : gI.toNat < n) :
    ∀ (js : List ℕ) (K : Mat), Reg n K →
      Reg n (js.foldl (assembleInner eDOFs ke gI i) K) ∧
      ∀ a b, mget (js.foldl (assembleInner eDOFs ke gI i) K) a b
        = mget K a b + ((js.map fun j => innerContrib eDOFs ke gI i j a b).sum) := by
  intro js
  induction js with
  | nil => intro K hK; exact ⟨hK, fun a b => by simp⟩
  | cons j js ih =>
    intro K hK
    have hstep : Reg n (assembleInner eDOFs ke gI i K j) ∧
        ∀ a b, mget (assembleInner eDOFs ke gI i K j) a b
          = mget K a b + innerContrib eDOFs ke gI i j a b := by
      cases hj : eDOFs[j]? with
      | none =>
        rw [assembleInner_none eDOFs ke gI i K hj]
        exact ⟨hK, fun a b => by rw [innerContrib_none eDOFs ke gI i a b hj, add_zero]⟩
      | some gJ =>
        rw [assembleInner_some eDOFs ke gI i K hj]
        by_cases hgJ : (0 : ℤ) ≤ gJ
        · have hgJn : gJ.toNat < n := by
            rcases hD gJ (mem_of_getElem2 hj) with h1 | ⟨_, h2⟩
            · subst h1; simp at hgJ
            · exact h2
          rw [if_pos hgJ]
          refine ⟨reg_addAt hK _ _ _, fun a b => ?_⟩
          rw [mget_addAt hK hgI hgJn, innerContrib_some eDOFs ke gI i a b hj]
          congr 1
          simp [hgJ]
        · rw [if_neg hgJ]
          refine ⟨hK, fun a b => ?_⟩
          rw [innerContrib_some eDOFs ke gI i a b hj]
          simp [hgJ]
    obtain ⟨h1, h2⟩ := hstep
    obtain ⟨h3, h4⟩ := ih _ h1
    refine ⟨h3, fun a b => ?_⟩
    rw [List.foldl_cons, h4, h2, List.map_cons, List.sum_cons]
    ring

lemma pairContrib_of_inner (eDOFs : List ℤ) (ke : Mat) {gI : ℤ} {i : ℕ}
    (hi : eDOFs[i]? = some gI) (hgI : (0 : ℤ) ≤ gI) (j a b : ℕ) :
    pairContrib eDOFs ke i j a b = innerContrib eDOFs ke gI i j a b := by
  unfold pairContrib innerContrib
  rw [hi]
  cases eDOFs[j]? with
  | none => rfl
  | some gJ => simp [hgI, and_assoc]

lemma pairContrib_none (eDOFs : List ℤ) (ke : Mat) {i : ℕ}
    (hi : eDOFs[i]? = none) (j a b : ℕ) : pairContrib eDOFs ke i j a b = 0 := by
  unfold pairContrib
  rw [hi]

lemma pairContrib_neg (eDOFs : List ℤ) (ke : Mat) {gI : ℤ} {i : ℕ}
    (hi : eDOFs[i]? = some gI) (hgI : ¬ (0 : ℤ) ≤ gI) (j a b : ℕ) :
    pairContrib eDOFs ke i j a b = 0 := by
  unfold pairContrib
  rw [hi]
  cases eDOFs[j]? with
  | none => rfl
  | some gJ => simp [hgI]

lemma outer_fold {n : ℕ} (eDOFs : List ℤ) (ke : Mat)
    (hD : ∀ d ∈ eDOFs, d = -1 ∨ (0 ≤ d ∧ d.toNat < n)) :
    ∀ (is : List ℕ) (K : Mat), Reg n K →
      Reg n (is.foldl (assembleOuter eDOFs ke) K) ∧
      ∀ a b, mget (is.foldl (assembleOuter eDOFs ke) K) a b
        = mget K a b + ((is.map fun i => ((List.range 12).map fun j =>
            pairContrib eDOFs ke i j a b).sum).sum) := by
  intro is
  induction is with
  | nil => intro K hK; exact ⟨hK, fun a b => by simp⟩
  | cons i is ih =>
    intro K hK
    have hstep : Reg n (assembleOuter eDOFs ke K i) ∧
        ∀ a b, mget (assembleOuter eDOFs ke K i) a b
          = mget K a b + ((List.range 12).map fun j =>
              pairContrib eDOFs ke i j a b).sum := by
      cases hi : eDOFs[i]? with
      | none =>
        rw [assembleOuter_none eDOFs ke K hi]
        refine ⟨hK, fun a b => ?_⟩
        have hz : ∀ j, pairContrib eDOFs ke i j a b = 0 :=
          fun j => pairContrib_none eDOFs ke hi j a b
        simp [hz]
      | some gI =>
        rw [assembleOuter_some eDOFs ke K hi]
        by_cases hgI : (0 : ℤ) ≤ gI
        · have hgIn : gI.toNat < n := by
            rcases hD gI (mem_of_getElem2 hi) with h1 | ⟨_, h2⟩
            · subst h1; simp at hgI
            · exact h2
          rw [if_pos hgI]
          obtain ⟨h1, h2⟩ := inner_fold eDOFs ke gI i hD hgIn (List.range 12) K hK
          refine ⟨h1, fun a b => ?_⟩
          rw [h2 a b]
          congr 1
          refine congrArg List.sum (List.map_congr_left fun j hj => ?_)
          exact (pairContrib_of_inner eDOFs ke hi hgI j a b).symm
        · rw [if_neg hgI]
          refine ⟨hK, fun a b => ?_⟩
          have hz : ∀ j, pairContrib eDOFs ke i j a b = 0 :=
            fun j => pairContrib_neg eDOFs ke hi hgI j a b
          simp [hz]
    obtain ⟨h1, h2⟩ := hstep
    obtain ⟨h3, h4⟩ := ih _ h1
    refine ⟨h3, fun a b => ?_⟩
    rw [List.foldl_cons, h4, h2, List.map_cons, List.sum_cons]
    ring

lemma assemble_bound {n : ℕ} (dm : List (String × List ℤ)) (element : Element)
    (hD : DofBound n dm) :
    ∀ d ∈ ((List.lookup element.startNodeId dm).getD []
        ++ (List.lookup element.endNodeId dm).getD []),
      d = -1 ∨ (0 ≤ d ∧ d.toNat < n) := by
  intro d hd
  rcases List.mem_append.1 hd with h1 | h1
  · cases hl : List.lookup element.startNodeId dm with
    | none => rw [hl] at h1; simp at h1
    | some v =>
      rw [hl] at h1
      exact hD _ (lookup_mem hl) d (by simpa using h1)
  · cases hl : List.lookup element.endNodeId dm with
    | none => rw [hl] at h1; simp at h1
    | some v =>
      rw [hl] at h1
      exact hD _ (lookup_mem hl) d (by simpa using h1)

lemma contrib_symm (eDOFs : List ℤ) (ke : Mat)
    (hke : ∀ a b, a < 12 → b < 12 → mget ke a b = mget ke b a) (a b : ℕ) :
    ((List.range 12).map fun i => ((List.range 12).map fun j =>
        pairContrib eDOFs ke i j a b).sum).sum
      = ((List.range 12).map fun i => ((List.range 12).map fun j =>
        pairContrib eDOFs ke i j b a).sum).sum := by
  have hpt : ∀ i j, i < 12 → j < 12 →
      pairContrib eDOFs ke i j a b = pairContrib eDOFs ke j i b a := by
    intro i j hi hj
    unfold pairContrib
    cases h1 : eDOFs[i]? with
    | none => cases h2 : eDOFs[j]? <;> rfl
    | some gI =>
      cases h2 : eDOFs[j]? with
      | none => rfl
      | some gJ =>
        rw [hke i j hi hj]
        exact if_congr (by tauto) rfl rfl
  rw [sum_map_range, sum_map_range]
  simp_rw [sum_map_range]
  rw [Finset.sum_comm]
  refine Finset.sum_congr rfl fun x hx => Finset.sum_congr rfl fun y hy => ?_
  exact hpt y x (Finset.mem_range.1 hy) (Finset.mem_range.1 hx)

lemma assembleElementMatrix_symm {n : ℕ} (dm : List (String × List ℤ))
    (element : Element) (ke : Mat) (K : Mat) (hD : DofBound n dm) (hK : Reg n K)
    (hKs : IsSymmMat K) (hke : ∀ a b, a < 12 → b < 12 → mget ke a b = mget ke b a) :
    Reg n (assembleElementMatrix dm element ke K)
      ∧ IsSymmMat (assembleElementMatrix dm element ke K) := by
  unfold assembleElementMatrix
  obtain ⟨h1, h2⟩ := outer_fold _ ke (assemble_bound dm element hD) (List.range 12) K hK
  refine ⟨h1, fun a b => ?_⟩
  rw [h2 a b, h2 b a, hKs a b, contrib_symm _ ke hke a b]

lemma build_fold {n : ℕ} (eng : FEMEngine) (dm : List (String × List ℤ))
    (hD : DofBound n dm) :
    ∀ (els : List (String × Element)) (K : Mat), Reg n K → IsSymmMat K →
      Reg n (els.foldl
        (fun K p => assembleElementMatrix dm p.2 (calculateElementStiffnessMatrix eng p.2) K) K)
      ∧ IsSymmMat (els.foldl
        (fun K p => assembleElementMatrix dm p.2 (calculateElementStiffnessMatrix eng p.2) K) K) := by
  intro els
  induction els with
  | nil => intro K hK hKs; exact ⟨hK, hKs⟩
  | cons el els ih =>
    intro K hK hKs
    obtain ⟨h1, h2⟩ := assembleElementMatrix_symm dm el.2
      (calculateElementStiffnessMatrix eng el.2) K hD hK hKs
      (fun a b _ _ => calculateElementStiffnessMatrix_symm eng el.2 a b)
    exact ih _ h1 h2

/-- C9.  For every model, the assembled global stiffness matrix is symmetric:
`K[i][j] = K[j][i]` for all indices (out-of-range reads defaulting to 0). -/
theorem buildGlobalStiffnessMatrix_symm (eng : FEMEngine) :
    IsSymmMat (buildGlobalStiffnessMatrix eng).1 :=
  (build_fold eng (setupDOFMapping eng.nodes).1 (setupDOFMapping_bound eng.nodes)
    eng.elements (zeroMat (setupDOFMapping eng.nodes).2)
    (reg_zeroMat _) (fun a b => by rw [mget_zeroMat, mget_zeroMat])).2

/-! ## Design engine data model (storage.ts lines 363-409)

`checkAISC360` and `checkEurocode3` receive `material: any` and
`section: any`; the structures below carry exactly the fields those two
functions read.  `height`/`thickness` are optional (FEM sections have no such
fields; stored sections may), accessed through the JS `||`-defaulting the
source uses. -/

/-- The exact rational value of the IEEE-754 double `Math.PI`. -/
def piQ : ℚ := 884279719003555 / 281474976710656

/-- Stand-in for JavaScript `**` with a real exponent (`0.658 ** (Fy/Fe)`,
line 531): computed as the integer-floor power.  No claim settled below
depends on its value (it only feeds the compressive-strength ratio). -/
def jsPow (b e : ℚ) : ℚ := b ^ e.floor

structure DMaterial where
  yieldStrength : ℚ    -- MPa
  ultimateStrength : ℚ -- MPa
  elasticModulus : ℚ   -- GPa
  deriving DecidableEq, Repr

structure DSection where
  area : ℚ
  momentOfInertiaY : ℚ
  momentOfInertiaZ : ℚ
  sectionModulusY : ℚ
  sectionModulusZ : ℚ
  radiusOfGyrationY : ℚ
  radiusOfGyrationZ : ℚ
  torsionalConstant : ℚ
  warpingConstant : Option ℚ
  height : Option ℚ
  thickness : Option ℚ
  deriving DecidableEq, Repr

structure DesignForces where
  axial : ℚ   -- kN, + tension
  shearY : ℚ
  shearZ : ℚ
  momentY : ℚ -- kNm
  momentZ : ℚ
  torsion : ℚ
  deriving DecidableEq, Repr

structure DesignParameters where
  unbragedLengthY : ℚ
  unbragedLengthZ : ℚ
  effectiveLengthFactorY : ℚ
  effectiveLengthFactorZ : ℚ
  bendingFactorY : ℚ
  bendingFactorZ : ℚ
  lateralTorsionalBracingLength : ℚ
  slendernessLimit : ℚ
  momentModificationFactor : ℚ
  deriving DecidableEq, Repr

inductive CheckStatus
  | PASS
  | FAIL
  | WARNING
  deriving DecidableEq, Repr

structure DesignResult where
  checkType : String
  ratio : ℚ
  capacity : ℚ
  demand : ℚ
  status : CheckStatus
  controllingCase : String
  equation : String
  notes : List String
  deriving DecidableEq, Repr

structure ElementDesignResult where
  elementId : String
  designCode : String
  overallRatio : WithBot ℚ
  overallStatus : CheckStatus
  checks : List DesignResult
  recommendations : List String
  deriving DecidableEq, Repr

/-- Every check the source pushes has the shape
`status: ratio <= 1.0 ? 'PASS' : 'FAIL'`; this constructor captures it. -/
def mkCheck (checkType : String) (ratio capacity demand : ℚ)
    (controllingCase equation : String) (notes : List String) : DesignResult :=
  { checkType := checkType, ratio := ratio, capacity := capacity, demand := demand
    status := if ratio ≤ 1 then .PASS else .FAIL
    controllingCase := controllingCase, equation := equation, notes := notes }

/-- `if (cond) checks.push(c)`. -/
def condCheck (b : Prop) [Decidable b] (c : DesignResult) : List DesignResult :=
  if b then [c] else []

/-- The list of individual checks `checkAISC360` pushes (lines 468-661), in
push order.  The combined check's `checks.find(...)` fallbacks use the JS
`||` defaulting via `jsOr`.  Line 561 reads `section.height` with no default
(NaN in JS when absent; modelled as 0 — no settled claim depends on it), and
line 573's elastic-LTB branch references the `Cb` constant that is only in
scope in the inelastic branch (a TS scope error in the source); it is
modelled as the same `momentModificationFactor` expression. -/
def aiscChecks (material : DMaterial) (sect : DSection) (forces : DesignForces)
    (parameters : DesignParameters) : List DesignResult :=
  let Fy := material.yieldStrength
  let Fu := material.ultimateStrength
  let E := material.elasticModulus * 1000
  let A := sect.area
  let Sx := sect.sectionModulusY
  let Sy := sect.sectionModulusZ
  let rx := sect.radiusOfGyrationY / 10
  let ry := sect.radiusOfGyrationZ / 10
  let J := sect.torsionalConstant
  -- Check 1: Tensile Yielding (AISC 360 D2.1)
  let check1 := condCheck (forces.axial > 0)
    (let Pn := Fy * A / 100
     let ratio := forces.axial / (0.9 * Pn)
     mkCheck "Tensile Yielding" ratio (0.9 * Pn) forces.axial "Tension"
       "AISC 360 D2.1: phi*Pn = phi*Fy*Ag"
       (if ratio > 0.95 then ["High utilization - consider larger section"] else []))
  -- Check 2: Tensile Rupture (AISC 360 D2.2)
  let check2 := condCheck (forces.axial > 0)
    (let Ae := 0.85 * A
     let Pn := Fu * Ae / 100
     let ratio := forces.axial / (0.75 * Pn)
     mkCheck "Tensile Rupture" ratio (0.75 * Pn) forces.axial "Tension"
       "AISC 360 D2.2: phi*Pn = phi*Fu*Ae" [])
  -- Check 3: Compressive Strength (AISC 360 E3)
  let check3 := condCheck (forces.axial < 0)
    (let Lc := max parameters.unbragedLengthY parameters.unbragedLengthZ * 1000
     let r := min rx ry
     let slenderness := parameters.effectiveLengthFactorY * Lc / r
     let Fe := piQ * piQ * E / (slenderness * slenderness)
     let Fcr := if slenderness ≤ 4.71 * sqrtQ (E / Fy)
       then jsPow 0.658 (Fy / Fe) * Fy
       else 0.877 * Fe
     let Pn := Fcr * A / 100
     let ratio := |forces.axial| / (0.9 * Pn)
     mkCheck "Compressive Strength" ratio (0.9 * Pn) (|forces.axial|) "Compression"
       "AISC 360 E3: phi*Pn = phi*Fcr*Ag"
       (if slenderness > 200 then ["High slenderness ratio - check buckling"] else []))
  -- Check 4: Flexural Strength (AISC 360 F2-F5), major and minor axis
  let Mpx := Fy * Sx / 1000
  let Mpy := Fy * Sy / 1000
  let check4 := condCheck (|forces.momentY| > 0.01)
    (let Lb := parameters.lateralTorsionalBracingLength * 1000
     let Lp := 1.76 * ry * sqrtQ (E / Fy)
     let Lr := 1.95 * (E / (0.7 * Fy)) * sqrtQ (J * A / (Sx * sect.height.getD 0)) *
       sqrtQ (1 + sqrtQ (1 + 6.76 * (0.7 * Fy / E) ^ 2))
     let Mn := if Lb ≤ Lp then Mpx
       else if Lb ≤ Lr then
         let Cb := parameters.momentModificationFactor
         Cb * (Mpx - (Mpx - 0.7 * Fy * Sx / 1000) * (Lb - Lp) / (Lr - Lp))
       else
         let Cb := parameters.momentModificationFactor
         let Fcr := Cb * piQ * piQ * E / ((Lb / ry) ^ 2) *
           sqrtQ (1 + 0.078 * J * (Lb / ry) ^ 2 / (Sx * sect.height.getD 0))
         Fcr * Sx / 1000
     let ratio := |forces.momentY| / (0.9 * Mn)
     mkCheck "Flexural Strength (Major Axis)" ratio (0.9 * Mn) (|forces.momentY|) "Bending"
       "AISC 360 F2-F5: phi*Mn"
       (if Lb > Lr then ["Elastic LTB controls - consider lateral bracing"] else []))
  let check5 := condCheck (|forces.momentZ| > 0.01)
    (let ratio := |forces.momentZ| / (0.9 * Mpy)
     mkCheck "Flexural Strength (Minor Axis)" ratio (0.9 * Mpy) (|forces.momentZ|) "Bending"
       "AISC 360 F6: phi*Mn = phi*Mp" [])
  -- Check 5 (source numbering): Shear Strength (AISC 360 G2)
  let h := jsOr sect.height 240
  let tw := jsOr sect.thickness 10
  let Aw := h * tw / 100
  let Cv := if h / tw ≤ 2.24 * sqrtQ (E / Fy) then 1
    else if h / tw ≤ 1.10 * sqrtQ (E / (0.8 * Fy)) then 2.24 * sqrtQ (E / Fy) / (h / tw)
    else 1.51 * E / ((h / tw) ^ 2 * Fy)
  let Vn := 0.6 * Fy * Aw * Cv / 10
  let shearDemand := sqrtQ (forces.shearY * forces.shearY + forces.shearZ * forces.shearZ)
  let check6 := condCheck (shearDemand > 0.01)
    (let ratio := shearDemand / (1 * Vn)
     mkCheck "Shear Strength" ratio (1 * Vn) shearDemand "Shear"
       "AISC 360 G2: phi*Vn = phi*0.6*Fy*Aw*Cv" [])
  let checksA := check1 ++ check2 ++ check3 ++ check4 ++ check5 ++ check6
  -- Check 6 (source numbering): Combined Axial and Flexural (AISC 360 H1)
  let Pc := |forces.axial|
  let Mcx := |forces.momentY|
  let Mcy := |forces.momentZ|
  let check7 := condCheck (Pc > 0 ∧ (Mcx > 0.01 ∨ Mcy > 0.01))
    (let Pn := jsOr ((checksA.find? fun c =>
        strIncludes c.checkType "Compressive" || strIncludes c.checkType "Tensile").map
        (fun c => c.capacity)) 1000
     let Mnx := jsOr ((checksA.find? fun c => strIncludes c.checkType "Major Axis").map
        (fun c => c.capacity)) (Mpx * 0.9)
     let Mny := jsOr ((checksA.find? fun c => strIncludes c.checkType "Minor Axis").map
        (fun c => c.capacity)) (Mpy * 0.9)
     let ratio := if Pc / Pn ≥ 0.2
       then Pc / Pn + (8/9) * (Mcx / Mnx + Mcy / Mny)
       else Pc / (2 * Pn) + (Mcx / Mnx + Mcy / Mny)
     mkCheck "Combined Axial and Flexural" ratio 1 ratio "Combined"
       "AISC 360 H1: Interaction equations"
       (if ratio > 0.95 then ["High interaction ratio - consider optimization"] else []))
  checksA ++ check7

/-- `checkAISC360` (lines 461-692): the checks list, then overall ratio
(`Math.max` over possibly no ratios), overall status, and recommendation
heuristics. -/
def checkAISC360 (elementId : String) (material : DMaterial) (sect : DSection)
    (forces : DesignForces) (parameters : DesignParameters) : ElementDesignResult :=
  let checks := aiscChecks material sect forces parameters
  let maxRatio := jsMax (checks.map fun c => c.ratio)
  let overallStatus := if checks.any (fun c => decide (c.status = CheckStatus.FAIL))
    then CheckStatus.FAIL
    else if checks.any (fun c => decide (c.status = CheckStatus.WARNING))
    then CheckStatus.WARNING else CheckStatus.PASS
  let recommendations :=
    (if (1 : WithBot ℚ) < maxRatio then
      ["Section is overstressed - increase size or change grade"]
     else if maxRatio < ((0.5 : ℚ) : WithBot ℚ) then
      ["Section is underutilized - consider smaller section for economy"]
     else [])
    ++ (if checks.any (fun c =>
          strIncludes c.checkType "Compressive" && decide (c.ratio > 0.8)) then
        ["Consider reducing unbraced length or increasing section size"] else [])
    ++ (if checks.any (fun c =>
          strIncludes c.checkType "Lateral-torsional" && decide (c.ratio > 0.8)) then
        ["Consider adding lateral bracing to reduce LTB effects"] else [])
  { elementId := elementId, designCode := "AISC360", overallRatio := maxRatio
    overallStatus := overallStatus, checks := checks, recommendations := recommendations }

/-- The list of individual checks `checkEurocode3` pushes (lines 702-842). -/
def ecChecks (material : DMaterial) (sect : DSection) (forces : DesignForces)
    (parameters : DesignParameters) : List DesignResult :=
  let fy := material.yieldStrength
  let E := material.elasticModulus * 1000
  let gM0 : ℚ := 1
  let gM1 : ℚ := 1
  let A := sect.area / 100
  let Ix := sect.momentOfInertiaY / 100000000
  let Iy := sect.momentOfInertiaZ / 100000000
  let Wx := sect.sectionModulusY / 1000000
  let Wy := sect.sectionModulusZ / 1000000
  let ix := sect.radiusOfGyrationY / 100
  let iy := sect.radiusOfGyrationZ / 100
  -- Check 1: Tension Resistance (EN 1993-1-1 6.2.3)
  let check1 := condCheck (forces.axial > 0)
    (let NtRd := A * fy / gM0
     let ratio := forces.axial / NtRd
     mkCheck "Tension Resistance" ratio NtRd forces.axial "Tension"
       "EN 1993-1-1 6.2.3: Nt,Rd = A*fy/gammaM0" [])
  -- Check 2: Compression Resistance (EN 1993-1-1 6.3.1)
  let check2 := condCheck (forces.axial < 0)
    (let Lcr := max parameters.unbragedLengthY parameters.unbragedLengthZ
     let i := min ix iy
     let lam := Lcr / i
     let lamBar := lam / (piQ * sqrtQ (E / fy))
     let alphaEC : ℚ := 0.34
     let PhiEC := 0.5 * (1 + alphaEC * (lamBar - 0.2) + lamBar * lamBar)
     let chi := if lamBar ≤ 0.2 then 1
       else 1 / (PhiEC + sqrtQ (PhiEC * PhiEC - lamBar * lamBar))
     let NbRd := chi * A * fy / gM1
     let ratio := |forces.axial| / NbRd
     mkCheck "Compression Resistance" ratio NbRd (|forces.axial|) "Compression"
       "EN 1993-1-1 6.3.1: Nb,Rd = chi*A*fy/gammaM1"
       (if lamBar > 1.5 then ["High slenderness - check buckling"] else []))
  -- Check 3: Bending Resistance (EN 1993-1-1 6.2.5)
  let check3 := condCheck (|forces.momentY| > 0.01)
    (let McRd := Wx * fy / gM0
     let ratio := |forces.momentY| / McRd
     mkCheck "Bending Resistance (Major Axis)" ratio McRd (|forces.momentY|) "Bending"
       "EN 1993-1-1 6.2.5: Mc,Rd = W*fy/gammaM0" [])
  -- Check 4: Lateral-Torsional Buckling (EN 1993-1-1 6.3.2)
  let check4 := condCheck (|forces.momentY| > 0.01)
    (let Lcr := parameters.lateralTorsionalBracingLength
     let C1 : ℚ := 1
     let Mcr := C1 * piQ * sqrtQ (E * Ix * E * Iy) / Lcr
     let lamBarLT := sqrtQ (Wx * fy / Mcr)
     let chiLT := if lamBarLT ≤ 0.4 then 1
       else
         let alphaLT : ℚ := 0.34
         let PhiLT := 0.5 * (1 + alphaLT * (lamBarLT - 0.2) + lamBarLT * lamBarLT)
         1 / (PhiLT + sqrtQ (PhiLT * PhiLT - lamBarLT * lamBarLT))
     let MbRd := chiLT * Wx * fy / gM1
     let ratio := |forces.momentY| / MbRd
     mkCheck "Lateral-Torsional Buckling" ratio MbRd (|forces.momentY|) "LTB"
       "EN 1993-1-1 6.3.2: Mb,Rd = chiLT*W*fy/gammaM1"
       (if lamBarLT > 1.2 then ["High LTB slenderness - add bracing"] else []))
  -- Check 5: Combined Bending and Axial (EN 1993-1-1 6.3.3)
  let NEd := |forces.axial|
  let MyEd := |forces.momentY|
  let MzEd := |forces.momentZ|
  let check5 := condCheck (NEd > 0.01 ∧ (MyEd > 0.01 ∨ MzEd > 0.01))
    (let NRk := A * fy
     let MyRk := Wx * fy
     let MzRk := Wy * fy
     let kyy : ℚ := 1
     let kyz : ℚ := 0.6
     let kzy : ℚ := 0.6
     let kzz : ℚ := 1
     let ratio1 := NEd / (NRk / gM1) + kyy * MyEd / (MyRk / gM1) + kyz * MzEd / (MzRk / gM1)
     let ratio2 := NEd / (NRk / gM1) + kzy * MyEd / (MyRk / gM1) + kzz * MzEd / (MzRk / gM1)
     let ratio := max ratio1 ratio2
     mkCheck "Combined Bending and Axial" ratio 1 ratio "Combined"
       "EN 1993-1-1 6.3.3: Interaction formulas" [])
  check1 ++ check2 ++ check3 ++ check4 ++ check5

/-- `checkEurocode3` (lines 695-857). -/
def checkEurocode3 (elementId : String) (material : DMaterial) (sect : DSection)
    (forces : DesignForces) (parameters : DesignParameters) : ElementDesignResult :=
  let checks := ecChecks material sect forces parameters
  let maxRatio := jsMax (checks.map fun c => c.ratio)
  let overallStatus := if checks.any (fun c => decide (c.status = CheckStatus.FAIL))
    then CheckStatus.FAIL
    else if checks.any (fun c => decide (c.status = CheckStatus.WARNING))
    then CheckStatus.WARNING else CheckStatus.PASS
  { elementId := elementId, designCode := "EC3", overallRatio := maxRatio
    overallStatus := overallStatus, checks := checks, recommendations := [] }


/-! ## Claim C8 machinery -/

lemma mem_condCheck {b : Prop} [Decidable b] {x c : DesignResult}
    (h : c ∈ condCheck b x) : c = x := by
  unfold condCheck at h
  split at h
  · simpa using h
  · simp at h

lemma aiscChecks_wf (m : DMaterial) (s : DSection) (f : DesignForces) (p : DesignParameters) :
    ∀ c ∈ aiscChecks m s f p,
      c.status = if c.ratio ≤ 1 then CheckStatus.PASS else CheckStatus.FAIL := by
  intro c hc
  unfold aiscChecks at hc
  simp only [List.mem_append] at hc
  rcases hc with ((((((h | h) | h) | h) | h) | h) | h) <;> rw [mem_condCheck h] <;> rfl

lemma ecChecks_wf (m : DMaterial) (s : DSection) (f : DesignForces) (p : DesignParameters) :
    ∀ c ∈ ecChecks m s f p,
      c.status = if c.ratio ≤ 1 then CheckStatus.PASS else CheckStatus.FAIL := by
  intro c hc
  unfold ecChecks at hc
  simp only [List.mem_append] at hc
  rcases hc with ((((h | h) | h) | h) | h) <;> rw [mem_condCheck h] <;> rfl

lemma le_jsMax {l : List ℚ} {q : ℚ} (h : q ∈ l) : (q : WithBot ℚ) ≤ jsMax l := by
  induction l with
  | nil => cases h
  | cons a t ih =>
    show (q : WithBot ℚ) ≤ max (↑a) (jsMax t)
    rcases List.mem_cons.1 h with rfl | h2
    · exact le_max_left _ _
    · exact le_trans (ih h2) (le_max_right _ _)

lemma jsMax_attained {l : List ℚ} (h : l ≠ []) : ∃ q ∈ l, (q : WithBot ℚ) = jsMax l := by
  induction l with
  | nil => exact absurd rfl h
  | cons a t ih =>
    cases t with
    | nil =>
      refine ⟨a, List.mem_cons_self a [], ?_⟩
      show (a : WithBot ℚ) = max (↑a) (jsMax [])
      rw [show jsMax [] = ⊥ from rfl]
      exact (max_eq_left bot_le).symm
    | cons b t2 =>
      obtain ⟨q, hq, he⟩ := ih (by simp)
      rcases le_total (jsMax (b :: t2)) (↑a : WithBot ℚ) with hle | hle
      · exact ⟨a, List.mem_cons_self a _, (max_eq_left hle).symm⟩
      · refine ⟨q, List.mem_cons_of_mem _ hq, ?_⟩
        show (q : WithBot ℚ) = max (↑a) (jsMax (b :: t2))
        rw [he]
        exact (max_eq_right hle).symm

/-- The aggregation contract of the spec: each individual check has status
FAIL when its ratio exceeds 1 and PASS otherwise (so never WARNING), the
overall ratio bounds every check ratio and is attained by one of them
whenever at least one check exists, and the overall status is FAIL when some
check failed and PASS otherwise. -/
def AggregateContract (r : ElementDesignResult) : Prop :=
  (∀ c ∈ r.checks,
    c.status = if c.ratio ≤ 1 then CheckStatus.PASS else CheckStatus.FAIL) ∧
  (∀ c ∈ r.checks, (c.ratio : WithBot ℚ) ≤ r.overallRatio) ∧
  (∀ c ∈ r.checks, ∃ d ∈ r.checks, (d.ratio : WithBot ℚ) = r.overallRatio) ∧
  (r.overallStatus = if ∃ c ∈ r.checks, c.status = CheckStatus.FAIL
    then CheckStatus.FAIL else CheckStatus.PASS)

lemma aggregate_of (checks : List DesignResult) (r : ElementDesignResult)
    (hwf : ∀ c ∈ checks,
      c.status = if c.ratio ≤ 1 then CheckStatus.PASS else CheckStatus.FAIL)
    (hch : r.checks = checks)
    (hratio : r.overallRatio = jsMax (checks.map fun c => c.ratio))
    (hst : r.overallStatus =
      if checks.any (fun c => decide (c.status = CheckStatus.FAIL)) then CheckStatus.FAIL
      else if checks.any (fun c => decide (c.status = CheckStatus.WARNING)) then
        CheckStatus.WARNING
      else CheckStatus.PASS) :
    AggregateContract r := by
  subst hch
  refine ⟨?_, ?_, ?_, ?_⟩
  · exact hwf
  · intro c hc
    rw [hratio]
    exact le_jsMax (List.mem_map_of_mem _ hc)
  · intro c hc
    rw [hratio]
    obtain ⟨q, hq, he⟩ :=
      jsMax_attained (l := r.checks.map fun c => c.ratio)
        (by
          simp only [ne_eq, List.map_eq_nil_iff]
          exact fun hn => by simp [hn] at hc)
    obtain ⟨d, hd, rfl⟩ := List.mem_map.1 hq
    exact ⟨d, hd, he⟩
  · rw [hst]
    have hW : r.checks.any (fun c => decide (c.status = CheckStatus.WARNING)) = false := by
      rw [Bool.eq_false_iff]
      intro hw
      obtain ⟨c, hc, hdec⟩ := List.any_eq_true.1 hw
      rw [decide_eq_true_eq, hwf c hc] at hdec
      revert hdec
      split <;> intro h <;> cases h
    cases hF : r.checks.any (fun c => decide (c.status = CheckStatus.FAIL)) with
    | true =>
      obtain ⟨c, hc, hdec⟩ := List.any_eq_true.1 hF
      rw [decide_eq_true_eq] at hdec
      rw [if_pos rfl, if_pos ⟨c, hc, hdec⟩]
    | false =>
      rw [if_neg (by simp), if_neg (by simp [hW])]
      have hne : ¬ ∃ c ∈ r.checks, c.status = CheckStatus.FAIL := by
        rintro ⟨c, hc, hcs⟩
        have hT : r.checks.any (fun c => decide (c.status = CheckStatus.FAIL)) = true :=
          List.any_eq_true.2 ⟨c, hc, by rw [decide_eq_true_eq]; exact hcs⟩
        rw [hF] at hT
        exact Bool.noConfusion hT
      rw [if_neg hne]

/-- C8.  For every invocation of `checkAISC360` or `checkEurocode3`, each
individual check has status FAIL when its demand/capacity ratio exceeds 1.0
and PASS otherwise, the element's overall ratio is the maximum over the
individual check ratios (an upper bound that is attained whenever at least
one check was generated), and the overall status is FAIL when some check
failed and PASS otherwise. -/
theorem design_check_aggregation (eid : String) (m : DMaterial) (s : DSection)
    (f : DesignForces) (p : DesignParameters) :
    AggregateContract (checkAISC360 eid m s f p) ∧
    AggregateContract (checkEurocode3 eid m s f p) :=
  ⟨aggregate_of (aiscChecks m s f p) _ (aiscChecks_wf m s f p) rfl rfl rfl,
   aggregate_of (ecChecks m s f p) _ (ecChecks_wf m s f p) rfl rfl rfl⟩


/-! ## Claims C7 and C10 -/

lemma condCheck_pos {b : Prop} [Decidable b] (hb : b) (x : DesignResult) :
    condCheck b x = [x] := by
  unfold condCheck
  exact if_pos hb

lemma head?_append_some {x : DesignResult} {l l2 : List DesignResult}
    (h : l.head? = some x) : (l ++ l2).head? = some x := by
  cases l with
  | nil => cases h
  | cons a t => simpa using h

/-- C7.  For every material with positive yield strength Fy and section with
positive area A, calling the AISC 360 checker with tensile axial force
exactly `0.9 × Fy × A/100` produces as its first check a Tensile Yielding
check whose demand/capacity ratio is exactly 1 (hence within any tolerance)
and whose status is PASS — the PASS/FAIL boundary being `ratio ≤ 1.0 ⇒
PASS`. -/
theorem aisc_tensile_yield_boundary (eid : String) (m : DMaterial) (s : DSection)
    (p : DesignParameters) (hFy : 0 < m.yieldStrength) (hA : 0 < s.area) :
    (((checkAISC360 eid m s
        ⟨0.9 * m.yieldStrength * s.area / 100, 0, 0, 0, 0, 0⟩ p).checks.head?).map
      fun c => (c.checkType, c.ratio, c.status)) =
      some ("Tensile Yielding", 1, CheckStatus.PASS) := by
  have hpos : (0 : ℚ) < 0.9 * m.yieldStrength * s.area / 100 := by positivity
  have hr : 0.9 * m.yieldStrength * s.area / 100 /
      (0.9 * (m.yieldStrength * s.area / 100)) = 1 := by
    rw [div_eq_one_iff_eq (by positivity)]
    ring
  have hck : (aiscChecks m s ⟨0.9 * m.yieldStrength * s.area / 100, 0, 0, 0, 0, 0⟩ p).head? =
      some (mkCheck "Tensile Yielding" 1
        (0.9 * (m.yieldStrength * s.area / 100)) (0.9 * m.yieldStrength * s.area / 100)
        "Tension" "AISC 360 D2.1: phi*Pn = phi*Fy*Ag"
        ["High utilization - consider larger section"]) := by
    unfold aiscChecks
    simp only []
    rw [condCheck_pos hpos]
    refine head?_append_some (head?_append_some (head?_append_some (head?_append_some
      (head?_append_some (head?_append_some ?_)))))
    rw [hr]
    norm_num
  rw [show (checkAISC360 eid m s ⟨0.9 * m.yieldStrength * s.area / 100, 0, 0, 0, 0, 0⟩ p).checks
      = aiscChecks m s ⟨0.9 * m.yieldStrength * s.area / 100, 0, 0, 0, 0, 0⟩ p from rfl]
  rw [hck]
  with_unfolding_all rfl

lemma checkAISC360_of_no_checks (eid : String) (m : DMaterial) (s : DSection)
    (f : DesignForces) (p : DesignParameters) (h : aiscChecks m s f p = []) :
    checkAISC360 eid m s f p =
      { elementId := eid, designCode := "AISC360", overallRatio := ⊥
        overallStatus := CheckStatus.PASS, checks := []
        recommendations := ["Section is underutilized - consider smaller section for economy"] } := by
  unfold checkAISC360
  rw [h]
  rfl

/-- C10.  If `checkAISC360` is called with forces that trigger no individual
check (axial force 0, both moment magnitudes at most 0.01 kNm, resultant
shear at most 0.01 kN), it returns a result with an empty checks list,
overall status PASS, and overall ratio `⊥` — the embedding of JavaScript's
`Math.max()` of no arguments, `-Infinity` — rather than 0 or an error. -/
theorem aisc_no_triggered_checks (eid : String) (m : DMaterial) (s : DSection)
    (p : DesignParameters) (f : DesignForces) (h0 : f.axial = 0)
    (hY : |f.momentY| ≤ 0.01) (hZ : |f.momentZ| ≤ 0.01)
    (hS : sqrtQ (f.shearY * f.shearY + f.shearZ * f.shearZ) ≤ 0.01) :
    (checkAISC360 eid m s f p).checks = [] ∧
    (checkAISC360 eid m s f p).overallStatus = CheckStatus.PASS ∧
    (checkAISC360 eid m s f p).overallRatio = (⊥ : WithBot ℚ) := by
  have h1 : ¬ (f.axial > 0) := by simp [h0]
  have h2 : ¬ (f.axial < 0) := by simp [h0]
  have h3 : ¬ (|f.momentY| > 0.01) := not_lt.2 hY
  have h4 : ¬ (|f.momentZ| > 0.01) := not_lt.2 hZ
  have h5 : ¬ (sqrtQ (f.shearY * f.shearY + f.shearZ * f.shearZ) > 0.01) := not_lt.2 hS
  have h6 : ¬ (|f.axial| > 0 ∧ (|f.momentY| > 0.01 ∨ |f.momentZ| > 0.01)) := by
    rintro ⟨ha, -⟩
    rw [h0] at ha
    simp at ha
  have hck : aiscChecks m s f p = [] := by
    unfold aiscChecks
    simp only [condCheck, if_neg h1, if_neg h2, if_neg h3, if_neg h4, if_neg h5, if_neg h6,
      List.append_nil, List.nil_append]
  rw [checkAISC360_of_no_checks eid m s f p hck]
  exact ⟨rfl, rfl, rfl⟩

/-! ## Concrete design inputs for witnesses -/

def matW : DMaterial := ⟨355, 490, 210⟩
def sectW : DSection :=
  ⟨391/10, 3892, 284, 324, 473/10, 997/100, 269/100, 698/100, none, some 240, some (98/10)⟩
def paramsW : DesignParameters := ⟨1, 1, 1, 1, 1, 1, 1, 200, 1⟩
def forcesW : DesignForces := ⟨100, 0, 0, 0, 0, 0⟩
def zeroForces : DesignForces := ⟨0, 0, 0, 0, 0, 0⟩

def aggWitnessCheck : DesignResult :=
  ((checkAISC360 "E1" matW sectW forcesW paramsW).checks).getD 0 (mkCheck "" 0 0 0 "" "" [])

lemma mem_of_head?_eq {α : Type} {l : List α} {a : α} (h : l.head? = some a) : a ∈ l := by
  cases l with
  | nil => cases h
  | cons b t =>
    simp only [List.head?] at h
    injection h with hba
    subst hba
    exact List.mem_cons_self _ _

set_option maxRecDepth 100000 in
lemma aggWitnessCheck_mem :
    (checkAISC360 "E1" matW sectW forcesW paramsW).checks.head? = some aggWitnessCheck := by
  with_unfolding_all rfl

theorem design_check_aggregation_witness :
    aggWitnessCheck ∈ (checkAISC360 "E1" matW sectW forcesW paramsW).checks ∧
    aggWitnessCheck.status
      = (if aggWitnessCheck.ratio ≤ 1 then CheckStatus.PASS else CheckStatus.FAIL) :=
  ⟨mem_of_head?_eq aggWitnessCheck_mem,
   (design_check_aggregation "E1" matW sectW forcesW paramsW).1.1 aggWitnessCheck
     (mem_of_head?_eq aggWitnessCheck_mem)⟩

set_option maxRecDepth 100000 in
theorem aisc_tensile_yield_boundary_witness :
    (0 : ℚ) < matW.yieldStrength ∧ (0 : ℚ) < sectW.area ∧
    (((checkAISC360 "E1" matW sectW
        ⟨0.9 * matW.yieldStrength * sectW.area / 100, 0, 0, 0, 0, 0⟩ paramsW).checks.head?).map
      fun c => (c.checkType, c.ratio, c.status)) =
      some ("Tensile Yielding", 1, CheckStatus.PASS) :=
  ⟨of_decide_eq_true (by with_unfolding_all rfl),
   of_decide_eq_true (by with_unfolding_all rfl),
   aisc_tensile_yield_boundary "E1" matW sectW paramsW
     (of_decide_eq_true (by with_unfolding_all rfl))
     (of_decide_eq_true (by with_unfolding_all rfl))⟩

set_option maxRecDepth 100000 in
theorem aisc_no_triggered_checks_witness :
    zeroForces.axial = 0 ∧ |zeroForces.momentY| ≤ 0.01 ∧ |zeroForces.momentZ| ≤ 0.01 ∧
    sqrtQ (zeroForces.shearY * zeroForces.shearY + zeroForces.shearZ * zeroForces.shearZ) ≤ 0.01 ∧
    ((checkAISC360 "E1" matW sectW zeroForces paramsW).checks = [] ∧
     (checkAISC360 "E1" matW sectW zeroForces paramsW).overallStatus = CheckStatus.PASS ∧
     (checkAISC360 "E1" matW sectW zeroForces paramsW).overallRatio = (⊥ : WithBot ℚ)) :=
  ⟨rfl, of_decide_eq_true (by with_unfolding_all rfl),
   of_decide_eq_true (by with_unfolding_all rfl),
   of_decide_eq_true (by with_unfolding_all rfl),
   aisc_no_triggered_checks "E1" matW sectW paramsW zeroForces rfl
     (of_decide_eq_true (by with_unfolding_all rfl))
     (of_decide_eq_true (by with_unfolding_all rfl))
     (of_decide_eq_true (by with_unfolding_all rfl))⟩

end StructuralMaster
